import Mathlib

/-!
# Task router: classification and decision engine

A shallow embedding of `main` of `src/go/main.go`.  The program lowercases the
task text, evaluates a fixed battery of precompiled regular expressions on it,
accumulates ten integer category scores, resolves a dominant category, derives
an estimated duration and a complexity tier, and finally picks a
recommendation, a model, a cost tier and a timeout.

The decision engine is embedded in two layers.  The signal extractor
(`signalsOf`) evaluates the pattern table on the lowercased text and counts
words and commas; its result is a `Signals` record holding the value of
`match(re, taskLower)` for each precompiled expression together with
`wordCount(task)` and `countChar(task, ',')`.  Everything after that
(`route`) reads the text only through this record, so a statement proved for
all `Signals` holds for all texts.  The protection flag returned by
`readProtection` is a `Bool`; `strings.ToLower` is a library function and its
result is taken as given.

Go `int` values are embedded as `Int`.  The only unbounded quantities are the
word count and the comma count, both bounded by the byte length of a single
command-line argument, so no 64-bit operation of the program wraps.
-/

namespace TaskRouter

/-! ## Data model -/

/-- The closed set of category names used by `main` (the strings
`"conversation"`, `"lookup"`, ... of the `cats` table), in declaration order. -/
inductive Category where
  | conversation
  | lookup
  | search
  | content
  | filemod
  | code
  | debug
  | architecture
  | deploy
  | config
  deriving DecidableEq, Repr, Fintype

/-- The string a category is printed as. -/
def Category.name : Category → String
  | .conversation => "conversation"
  | .lookup => "lookup"
  | .search => "search"
  | .content => "content"
  | .filemod => "filemod"
  | .code => "code"
  | .debug => "debug"
  | .architecture => "architecture"
  | .deploy => "deploy"
  | .config => "config"

/-- The two values of `rec`. -/
inductive Recommendation where
  | execute_direct
  | spawn
  deriving DecidableEq, Repr

/-- The string a recommendation is printed as. -/
def Recommendation.name : Recommendation → String
  | .execute_direct => "execute_direct"
  | .spawn => "spawn"

/-- What `main` reads off the task text: one field per precompiled regular
expression, holding `match(re, taskLower)`, then `wc = wordCount(task)` and
`commaCount = countChar(task, ',')`. -/
structure Signals where
  reConvGreeting : Bool
  reConvQuestion : Bool
  reConvEndsQ : Bool
  reConvOpinion : Bool
  reLookupVerb : Bool
  reLookupTool : Bool
  reLookupRead : Bool
  reSearchVerb : Bool
  reSearchDeep : Bool
  reSearchQuant : Bool
  reContentVerb : Bool
  reContentObj : Bool
  reFilemodVerb : Bool
  reFilemodObj : Bool
  reCodeKeyword : Bool
  reCodeCreate : Bool
  reCodeInfra : Bool
  reCodeTest : Bool
  reCodeRefactor : Bool
  reDebugFix : Bool
  reDebugVerb : Bool
  reDebugSignal : Bool
  reDebugTech : Bool
  reArchKeyword : Bool
  reArchSystem : Bool
  reArchMulti : Bool
  reDeployKeyword : Bool
  reDeployAction : Bool
  reConfigKeyword : Bool
  reConfigTech : Bool
  reTechObject : Bool
  reMultiStep : Bool
  reMultiBatch : Bool
  reCommitEnd : Bool
  reQuestionStart : Bool
  reQuestionEarly : Bool
  wc : Nat
  commaCount : Nat
  deriving DecidableEq, Repr

/-- The signals of a text on which no expression matches, with the given word
and comma counts. -/
def Signals.quiet (wc commaCount : Nat) : Signals :=
  { reConvGreeting := false, reConvQuestion := false, reConvEndsQ := false,
    reConvOpinion := false, reLookupVerb := false, reLookupTool := false,
    reLookupRead := false, reSearchVerb := false, reSearchDeep := false,
    reSearchQuant := false, reContentVerb := false, reContentObj := false,
    reFilemodVerb := false, reFilemodObj := false, reCodeKeyword := false,
    reCodeCreate := false, reCodeInfra := false, reCodeTest := false,
    reCodeRefactor := false, reDebugFix := false, reDebugVerb := false,
    reDebugSignal := false, reDebugTech := false, reArchKeyword := false,
    reArchSystem := false, reArchMulti := false, reDeployKeyword := false,
    reDeployAction := false, reConfigKeyword := false, reConfigTech := false,
    reTechObject := false, reMultiStep := false, reMultiBatch := false,
    reCommitEnd := false, reQuestionStart := false, reQuestionEarly := false,
    wc := wc, commaCount := commaCount }

/-- The ten running scores `catConversation`, ..., `catConfig`. -/
structure Scores where
  catConversation : Int
  catLookup : Int
  catSearch : Int
  catContent : Int
  catFilemod : Int
  catCode : Int
  catDebug : Int
  catArchitecture : Int
  catDeploy : Int
  catConfig : Int
  deriving DecidableEq, Repr

/-- The helper `min` of the program. -/
def min (a b : Int) : Int := if a < b then a else b

/-- The helper `max` of the program. -/
def max (a b : Int) : Int := if a > b then a else b

/-! ## Signal extractor

The pattern table is written in the RE2 syntax of Go's `regexp` package.  The
fragment it uses is embedded here: literals, `.`, bracket classes, `\s`,
`\b`, `^`, `$`, grouping, alternation and the quantifiers `?`, `*`, `+`.
`MatchString` reports whether some substring matches, so only the existence
of a match is modelled.  A Go string is embedded as a `String`, that is, as
the sequence of its runes; texts that are not valid UTF-8 are outside the
embedding. -/

/-- The abstract syntax of the patterns. -/
inductive Regex where
  | fail
  | empty
  | char (c : Char)
  | any
  | cls (ranges : List (Char × Char))
  | seq (a b : Regex)
  | alt (a b : Regex)
  | opt (a : Regex)
  | star (a : Regex)
  | plus (a : Regex)
  | bol
  | eol
  | wordBoundary
  deriving DecidableEq, Repr

/-- The class `\w` of RE2: ASCII letters, digits and underscore. -/
def isWordChar (c : Char) : Bool :=
  ('0' ≤ c && c ≤ '9') || ('A' ≤ c && c ≤ 'Z') || ('a' ≤ c && c ≤ 'z') || c == '_'

/-- The assertion `\b`: exactly one of the rune before and the rune after the
position is a word character; the two ends of the text count as non-word. -/
def atWordBoundary (prev : Option Char) (rest : List Char) : Bool :=
  (match prev with
    | some c => isWordChar c
    | none => false) !=
  (match rest with
    | c :: _ => isWordChar c
    | [] => false)

/-- Zero or more repetitions of `step`, each consuming at least one rune,
followed by the continuation `k`. -/
def starLoop (step : Option Char → List Char → (Option Char → List Char → Bool) → Bool) :
    Nat → Option Char → List Char → (Option Char → List Char → Bool) → Bool
  | 0, prev, rest, k => k prev rest
  | n + 1, prev, rest, k =>
    k prev rest ||
      step prev rest (fun p r => decide (r.length < rest.length) && starLoop step n p r k)

/-- Backtracking matcher: `re.run prev rest k` holds when `re` matches a prefix
of `rest` (with `prev` the rune just before it) such that the continuation `k`
accepts the last rune consumed and the remaining text.  Without flags `.`
excludes the newline, `^` holds only at the start of the text and `$` only at
its end. -/
def Regex.run : Regex → Option Char → List Char → (Option Char → List Char → Bool) → Bool
  | .fail, _, _, _ => false
  | .empty, prev, rest, k => k prev rest
  | .char c, _, rest, k =>
    match rest with
    | d :: ds => c == d && k (some d) ds
    | [] => false
  | .any, _, rest, k =>
    match rest with
    | d :: ds => d != '\n' && k (some d) ds
    | [] => false
  | .cls ranges, _, rest, k =>
    match rest with
    | d :: ds => ranges.any (fun r => r.1 ≤ d && d ≤ r.2) && k (some d) ds
    | [] => false
  | .seq a b, prev, rest, k => a.run prev rest (fun p r => b.run p r k)
  | .alt a b, prev, rest, k => a.run prev rest k || b.run prev rest k
  | .opt a, prev, rest, k => a.run prev rest k || k prev rest
  | .star a, prev, rest, k => starLoop a.run rest.length prev rest k
  | .plus a, prev, rest, k => a.run prev rest (fun p r => starLoop a.run r.length p r k)
  | .bol, prev, rest, k => prev.isNone && k prev rest
  | .eol, prev, rest, k => rest.isEmpty && k prev rest
  | .wordBoundary, prev, rest, k => atWordBoundary prev rest && k prev rest

/-- Search for a match starting at the current position or at any later one. -/
def Regex.searchFrom (re : Regex) : Option Char → List Char → Bool
  | prev, [] => re.run prev [] (fun _ _ => true)
  | prev, c :: cs => re.run prev (c :: cs) (fun _ _ => true) || re.searchFrom (some c) cs

/-- A postfix quantifier, when one follows the atom. -/
def applyQuant (a : Regex) : List Char → Regex × List Char
  | '?' :: cs => (.opt a, cs)
  | '*' :: cs => (.star a, cs)
  | '+' :: cs => (.plus a, cs)
  | cs => (a, cs)

/-- The inside of a bracket class: single runes and ranges, up to the closing
bracket. -/
def parseClass : List Char → List (Char × Char) → Option (Regex × List Char)
  | [], _ => none
  | ']' :: cs, acc => some (.cls acc.reverse, cs)
  | lo :: '-' :: hi :: cs, acc =>
    if hi = ']' then parseClass ('-' :: hi :: cs) ((lo, lo) :: acc)
    else parseClass cs ((lo, hi) :: acc)
  | c :: cs, acc => parseClass cs ((c, c) :: acc)

/-- The class `\s` of RE2: tab, newline, form feed, carriage return, space. -/
def whitespace : Regex := .cls [('\t', '\n'), ('\x0c', '\r'), (' ', ' ')]

mutual
/-- An alternation of sequences. -/
def parseAlt : Nat → List Char → Option (Regex × List Char)
  | 0, _ => none
  | n + 1, cs =>
    match parseSeq n cs with
    | some (a, '|' :: rest) =>
      match parseAlt n rest with
      | some (b, rest) => some (.alt a b, rest)
      | none => none
    | r => r
/-- A sequence of quantified atoms, up to `|`, `)` or the end. -/
def parseSeq : Nat → List Char → Option (Regex × List Char)
  | 0, _ => none
  | _ + 1, [] => some (.empty, [])
  | _ + 1, '|' :: cs => some (.empty, '|' :: cs)
  | _ + 1, ')' :: cs => some (.empty, ')' :: cs)
  | n + 1, cs =>
    match parseAtom n cs with
    | some (a, rest) =>
      match applyQuant a rest with
      | (a, rest) =>
        match parseSeq n rest with
        | some (.empty, rest) => some (a, rest)
        | some (b, rest) => some (.seq a b, rest)
        | none => none
    | none => none
/-- A group, a class, an escape, an assertion or a literal rune. -/
def parseAtom : Nat → List Char → Option (Regex × List Char)
  | 0, _ => none
  | _, [] => none
  | n + 1, '(' :: cs =>
    match parseAlt n cs with
    | some (a, ')' :: rest) => some (a, rest)
    | _ => none
  | _ + 1, '[' :: cs => parseClass cs []
  | _ + 1, '\\' :: 'b' :: cs => some (.wordBoundary, cs)
  | _ + 1, '\\' :: 's' :: cs => some (whitespace, cs)
  | _ + 1, '\\' :: '.' :: cs => some (.char '.', cs)
  | _ + 1, '\\' :: '?' :: cs => some (.char '?', cs)
  | _ + 1, '\\' :: _ => none
  | _ + 1, '.' :: cs => some (.any, cs)
  | _ + 1, '^' :: cs => some (.bol, cs)
  | _ + 1, '$' :: cs => some (.eol, cs)
  | _ + 1, '?' :: _ => none
  | _ + 1, '*' :: _ => none
  | _ + 1, '+' :: _ => none
  | _ + 1, c :: cs => some (.char c, cs)
end

/-- The function `compile` of the program; a pattern outside the embedded
fragment becomes `Regex.fail`. -/
def compile (pattern : String) : Regex :=
  match parseAlt (4 * pattern.length + 4) pattern.data with
  | some (r, []) => r
  | _ => .fail

/-- The function `match` of the program (`re.MatchString(s)`). -/
def matchString (re : Regex) (s : String) : Bool :=
  re.searchFrom none s.data

/-- The predicate `unicode.IsSpace`: the White_Space code points. -/
def isSpace (c : Char) : Bool :=
  let r := c.toNat
  (0x09 ≤ r && r ≤ 0x0d) || r == 0x20 || r == 0x85 || r == 0xa0 || r == 0x1680 ||
  (0x2000 ≤ r && r ≤ 0x200a) || r == 0x2028 || r == 0x2029 || r == 0x202f ||
  r == 0x205f || r == 0x3000

/-- The number of maximal runs of non-space runes; `inField` tells whether the
previous rune belongs to a run. -/
def countFields : Bool → List Char → Nat
  | _, [] => 0
  | inField, c :: cs =>
    if isSpace c then countFields false cs
    else if inField then countFields true cs
    else countFields true cs + 1

/-- The function `wordCount` of the program: `len(strings.Fields(s))`. -/
def wordCount (s : String) : Nat :=
  countFields false s.data

/-- The function `countChar` of the program for an ASCII `c`: in UTF-8 the
byte of an ASCII character occurs only as that character. -/
def countChar (s : String) (c : Char) : Nat :=
  s.data.count c

/-! ### The pattern table (lines 56-119) -/

def reConvGreeting : Regex :=
  compile r"^(ok|oui|non|yes|no|merci|thanks|super|cool|bien|parfait|good|great|salut|hello|hi|bonjour|bonsoir|hey|yo|ciao|d.accord|okay|vas-y|go|fais-le|lance|c.est bon|top|nice|lol|mdr|haha|👍|❤️|🙏)$"

def reConvQuestion : Regex :=
  compile r"^\s*(quel |quelle |comment |pourquoi |combien |où |quand |est-ce que |what |how |why |when |where |which |who |is |are |can |do |does )"

def reConvEndsQ : Regex :=
  compile r"\?$"

def reConvOpinion : Regex :=
  compile r"\b(penses|think|opinion|avis|recommend|conseille|préfère|prefer|choix|choice)\b"

def reLookupVerb : Regex :=
  compile r"\b(check|vérifie|show|affiche|list|liste|status|état|info|get|récupère|dis-moi|tell me|regarde|look|montre)\b"

def reLookupTool : Regex :=
  compile r"\b(calendar|calendrier|agenda|weather|météo|meteo|heure|time|date|aujourd.hui|today|demain|tomorrow|rappelle|remind)\b"

def reLookupRead : Regex :=
  compile r"\b(read|lis|log|logs|git status|git log|git diff)\b"

def reSearchVerb : Regex :=
  compile r"\b(recherche|cherche|search|find|trouve|trouver|articles?|papers?|sources?|références?)\b"

def reSearchDeep : Regex :=
  compile r"\b(investigate|explore|analyze|analyse|compare|audit|review|evaluate|évalue|benchmark|état de l.art|state of the art)\b"

def reSearchQuant : Regex :=
  compile r"\b[0-9]+\s*(articles?|exemples?|sources?|liens?|links?|results?|résultats?|options?|alternatives?)\b"

def reContentVerb : Regex :=
  compile r"\b(rédige|draft|compose|write|écris|résume|summarize|summary|résumé|traduis|translate)\b"

def reContentObj : Regex :=
  compile r"\b(email|mail|message|lettre|letter|article|blog|post|doc|documentation|readme|rapport|report)\b"

def reFilemodVerb : Regex :=
  compile r"\b(update|met à jour|modifie|modify|change|edit|édite|améliore|improve|réécris|rewrite|ajoute|add|supprime|remove|delete|rename|renomme)\b"

def reFilemodObj : Regex :=
  compile r"\b(fichier|file|config|\.json|\.yaml|\.yml|\.toml|\.env|\.md|\.txt)\b"

def reCodeKeyword : Regex :=
  compile r"\b(code|script|function|fonction|implement|implémente|développe|develop|programme|program|endpoint|api|route|handler|middleware|class|module|package|library|lib)\b"

def reCodeCreate : Regex :=
  compile r"\b(crée|créer|create|build|write a|écris un)\b"

def reCodeInfra : Regex :=
  compile r"\b(skill|plugin|tool|bot|cli|daemon|service|worker|cron|webhook|docker|container|k8s|kubernetes)\b"

def reCodeTest : Regex :=
  compile r"\b(test|tests|spec|unittest|jest|pytest|ci|cd|pipeline|lint|eslint|prettier|type.?check|e2e|integration.?test|coverage)\b"

def reCodeRefactor : Regex :=
  compile r"\b(refactor[ei]?|refactorise|optimize|optimise|clean.?up|restructure)\b"

def reDebugFix : Regex :=
  compile r"\b(fix|corrige|résous|resolve|troubleshoot|répare)\b"

def reDebugVerb : Regex :=
  compile r"\b(debug|debugge|diagnose|diagnostique)\b"

def reDebugSignal : Regex :=
  compile r"\b(error|erreur|bug|issue|broken|cassé|crash|fail|failed|marche pas|doesn.t work|not working|problem|problème|weird|bizarre|strange|étrange)\b"

def reDebugTech : Regex :=
  compile r"\b(stack.?trace|traceback|exception|segfault|undefined|null|nan|timeout|502|500|404|403|401)\b"

def reArchKeyword : Regex :=
  compile r"\b(architect|architecture|design|conception|plan|planifie|stratégie|strategy|roadmap|spec|specification)\b"

def reArchSystem : Regex :=
  compile r"\b(système|system|infrastructure|infra|stack|database|db|schema|migration|migrate|scale|scaling)\b"

def reArchMulti : Regex :=
  compile r"\b(multi|plusieurs composants|several components|microservice|monorepo|event.?driven|pub.?sub|queue|message broker)\b"

def reDeployKeyword : Regex :=
  compile r"\b(deploy|déploie|publish|publie|release|ship|merge|pr |pull request|push to|vercel|netlify|heroku|aws|gcp|azure)\b"

def reDeployAction : Regex :=
  compile r"\b(assure.?toi|assure.?toi que|ensure|make sure|vérifie que|vérife que|check that|synchronise|sync|met à jour|update)\b"

def reConfigKeyword : Regex :=
  compile r"\b(install|installe|configure|setup|set up|config|provision|bootstrap|init|initialize)\b"

def reConfigTech : Regex :=
  compile r"\b(ssh|ssl|tls|cert|certificate|dns|domain|nginx|apache|proxy|firewall|port|env|environment)\b"

def reTechObject : Regex :=
  compile r"\b(repo|repository|github|gitlab|bitbucket|git |npm|yarn|pnpm|docker|container|image|service|daemon|server|api|endpoint|database|db|version|package|module|lib|library|branch|main|master|prod|production|staging|dev)\b"

def reMultiStep : Regex :=
  compile r"\b(and then|et ensuite|puis|après ça|ensuite|step.?by.?step|étape par étape)\b"

def reMultiBatch : Regex :=
  compile r"\b(multiple|plusieurs|every|chaque|all|tous|toutes|each|batch|bulk)\b"

def reCommitEnd : Regex :=
  compile r"\b(commit|push|test|tests)\s*[,.]?\s*$|\bcommit.*(push|et push)"

def reQuestionStart : Regex :=
  compile r"^\s*(c.est quoi|qu.est-ce que|what is|what.s|why does|why is|pourquoi|how does|how is|comment ça|explique|explain|describe|décris)"

def reQuestionEarly : Regex :=
  compile r"^\s*(c.est quoi|qu.est-ce que|what is|what.s|why does|pourquoi|how |comment |explique|explain|describe|décris)"

/-- The signals of a task: `task` is the text as given, `taskLower` is
`strings.ToLower(task)`, which for a text without upper-case letters is the
text itself.  Lines 223-227 and the `match` calls of lines 242-421. -/
def signalsOf (task taskLower : String) : Signals :=
  { reConvGreeting := matchString reConvGreeting taskLower,
    reConvQuestion := matchString reConvQuestion taskLower,
    reConvEndsQ := matchString reConvEndsQ taskLower,
    reConvOpinion := matchString reConvOpinion taskLower,
    reLookupVerb := matchString reLookupVerb taskLower,
    reLookupTool := matchString reLookupTool taskLower,
    reLookupRead := matchString reLookupRead taskLower,
    reSearchVerb := matchString reSearchVerb taskLower,
    reSearchDeep := matchString reSearchDeep taskLower,
    reSearchQuant := matchString reSearchQuant taskLower,
    reContentVerb := matchString reContentVerb taskLower,
    reContentObj := matchString reContentObj taskLower,
    reFilemodVerb := matchString reFilemodVerb taskLower,
    reFilemodObj := matchString reFilemodObj taskLower,
    reCodeKeyword := matchString reCodeKeyword taskLower,
    reCodeCreate := matchString reCodeCreate taskLower,
    reCodeInfra := matchString reCodeInfra taskLower,
    reCodeTest := matchString reCodeTest taskLower,
    reCodeRefactor := matchString reCodeRefactor taskLower,
    reDebugFix := matchString reDebugFix taskLower,
    reDebugVerb := matchString reDebugVerb taskLower,
    reDebugSignal := matchString reDebugSignal taskLower,
    reDebugTech := matchString reDebugTech taskLower,
    reArchKeyword := matchString reArchKeyword taskLower,
    reArchSystem := matchString reArchSystem taskLower,
    reArchMulti := matchString reArchMulti taskLower,
    reDeployKeyword := matchString reDeployKeyword taskLower,
    reDeployAction := matchString reDeployAction taskLower,
    reConfigKeyword := matchString reConfigKeyword taskLower,
    reConfigTech := matchString reConfigTech taskLower,
    reTechObject := matchString reTechObject taskLower,
    reMultiStep := matchString reMultiStep taskLower,
    reMultiBatch := matchString reMultiBatch taskLower,
    reCommitEnd := matchString reCommitEnd taskLower,
    reQuestionStart := matchString reQuestionStart taskLower,
    reQuestionEarly := matchString reQuestionEarly taskLower,
    wc := wordCount task,
    commaCount := countChar task ',' }

/-! ### Signals of sample texts -/

/-- The signals of the text `fix the login bug`: four words, no comma; the
only expressions that match are `reDebugFix` (on `fix`) and `reDebugSignal`
(on `bug`). -/
def sigFixLoginBug : Signals :=
  { Signals.quiet 4 0 with reDebugFix := true, reDebugSignal := true }

/-- The signals of the text `ensure prod`: two words, no comma; the only
expressions that match are `reDeployAction` (on `ensure`) and `reTechObject`
(on `prod`). -/
def sigEnsureProd : Signals :=
  { Signals.quiet 2 0 with reDeployAction := true, reTechObject := true }

/-- The signals of the text `ensure it`: two words, no comma; the only
expression that matches is `reDeployAction` (on `ensure`). -/
def sigEnsureIt : Signals :=
  { Signals.quiet 2 0 with reDeployAction := true }

/-- The signals of the text `the logs?`: two words, no comma; the only
expressions that match are `reConvEndsQ` and `reLookupRead` (on `logs`). -/
def sigTheLogs : Signals :=
  { Signals.quiet 2 0 with reConvEndsQ := true, reLookupRead := true }

/-- The text of scenario 2 of the specification. -/
def taskFixThenCommit : String := "fix the login bug, then commit and push"

/-- The signals of `taskFixThenCommit`: eight words, one comma; `reDebugFix`
matches on `fix`, `reDebugSignal` on `bug`, `reCommitEnd` on the final `push`.
`reMultiStep` does not match: the text has `then` but not `and then`. -/
def sigFixThenCommit : Signals :=
  { Signals.quiet 8 1 with reDebugFix := true, reDebugSignal := true, reCommitEnd := true }

/-- The signals of the text `ok`: one word; only `reConvGreeting` matches. -/
def sigOk : Signals :=
  { Signals.quiet 1 0 with reConvGreeting := true }

/-- The text of scenario 4 of the specification. -/
def taskDesign : String :=
  "design the architecture for a multi-service event-driven pipeline and plan the database migration"

/-- The signals of `taskDesign`: thirteen words, no comma; the three
architecture expressions match, and so do `reCodeInfra` (on `service`),
`reCodeTest` (on `pipeline`) and `reTechObject` (on `service`, `database`). -/
def sigDesign : Signals :=
  { Signals.quiet 13 0 with
    reCodeInfra := true, reCodeTest := true, reArchKeyword := true,
    reArchSystem := true, reArchMulti := true, reTechObject := true }

/-- The signals of the text `create a bot`: three words; `reCodeCreate` matches
on `create` and `reCodeInfra` on `bot`. -/
def sigCreateBot : Signals :=
  { Signals.quiet 3 0 with reCodeCreate := true, reCodeInfra := true }

/-- The signals of the text `fix bug?`: two words; `reConvEndsQ`, `reDebugFix`
and `reDebugSignal` match. -/
def sigFixBugQ : Signals :=
  { Signals.quiet 2 0 with reConvEndsQ := true, reDebugFix := true, reDebugSignal := true }

/-- The signals of the text `can you fix the bug here?`: six words;
`reConvQuestion` (on `can `), `reConvEndsQ`, `reDebugFix` and `reDebugSignal`
match. -/
def sigCanYouFix : Signals :=
  { Signals.quiet 6 0 with
    reConvQuestion := true, reConvEndsQ := true, reDebugFix := true, reDebugSignal := true }

/-- The signals of the text `fix the api bug`: four words; `reCodeKeyword` and
`reTechObject` match on `api`, `reDebugFix` on `fix`, `reDebugSignal` on `bug`. -/
def sigFixApiBug : Signals :=
  { Signals.quiet 4 0 with
    reCodeKeyword := true, reDebugFix := true, reDebugSignal := true, reTechObject := true }

/-! ## Category scorer -/

/-- The base pass (lines 229-296): every matched rule adds its weight to its
category, in source order.  The code-creation rule reads the current value of
`catCode`, which at that point holds only the code-keyword weight. -/
def baseScores (h : Signals) : Scores :=
  let catConversation : Int := 0
  let catLookup : Int := 0
  let catSearch : Int := 0
  let catContent : Int := 0
  let catFilemod : Int := 0
  let catCode : Int := 0
  let catDebug : Int := 0
  let catArchitecture : Int := 0
  let catDeploy : Int := 0
  let catConfig : Int := 0
  -- Conversation
  let catConversation := if h.reConvGreeting then catConversation + 10 else catConversation
  let catConversation := if h.reConvQuestion then catConversation + 5 else catConversation
  let catConversation := if h.reConvEndsQ then catConversation + 3 else catConversation
  let catConversation := if h.reConvOpinion then catConversation + 4 else catConversation
  -- Lookup
  let catLookup := if h.reLookupVerb then catLookup + 5 else catLookup
  let catLookup := if h.reLookupTool then catLookup + 6 else catLookup
  let catLookup := if h.reLookupRead then catLookup + 4 else catLookup
  -- Search
  let catSearch := if h.reSearchVerb then catSearch + 5 else catSearch
  let catSearch := if h.reSearchDeep then catSearch + 5 else catSearch
  let catSearch := if h.reSearchQuant then catSearch + 4 else catSearch
  -- Content
  let catContent := if h.reContentVerb then catContent + 5 else catContent
  let catContent := if h.reContentObj then catContent + 4 else catContent
  -- Filemod
  let catFilemod := if h.reFilemodVerb then catFilemod + 5 else catFilemod
  let catFilemod := if h.reFilemodObj then catFilemod + 3 else catFilemod
  -- Code
  let catCode := if h.reCodeKeyword then catCode + 6 else catCode
  let catContent := if h.reCodeCreate then (if catCode > 0 then catContent else catContent + 2)
    else catContent
  let catCode := if h.reCodeCreate then (if catCode > 0 then catCode + 4 else catCode + 2)
    else catCode
  let catCode := if h.reCodeInfra then catCode + 5 else catCode
  let catCode := if h.reCodeTest then catCode + 6 else catCode
  let catCode := if h.reCodeRefactor then catCode + 7 else catCode
  -- Debug
  let catDebug := if h.reDebugFix then catDebug + 8 else catDebug
  let catDebug := if h.reDebugVerb then catDebug + 6 else catDebug
  let catDebug := if h.reDebugSignal then catDebug + 5 else catDebug
  let catDebug := if h.reDebugTech then catDebug + 4 else catDebug
  -- Architecture
  let catArchitecture := if h.reArchKeyword then catArchitecture + 7 else catArchitecture
  let catArchitecture := if h.reArchSystem then catArchitecture + 4 else catArchitecture
  let catArchitecture := if h.reArchMulti then catArchitecture + 5 else catArchitecture
  -- Deploy
  let catDeploy := if h.reDeployKeyword then catDeploy + 6 else catDeploy
  let catDeploy := if h.reDeployAction then catDeploy + 2 else catDeploy
  let catConfig := if h.reDeployAction then catConfig + 2 else catConfig
  -- Config
  let catConfig := if h.reConfigKeyword then catConfig + 5 else catConfig
  let catConfig := if h.reConfigTech then catConfig + 4 else catConfig
  { catConversation := catConversation, catLookup := catLookup, catSearch := catSearch,
    catContent := catContent, catFilemod := catFilemod, catCode := catCode,
    catDebug := catDebug, catArchitecture := catArchitecture, catDeploy := catDeploy,
    catConfig := catConfig }

/-- The technical-object boost (lines 298-304). -/
def techObjectBoost (reTechObject : Bool) (s : Scores) : Scores :=
  if reTechObject then
    if s.catDeploy ≥ 2 ∨ s.catConfig ≥ 2 then
      { s with catDeploy := s.catDeploy + 6, catConfig := s.catConfig + 4 }
    else s
  else s

/-- The code-versus-filemod halving (lines 306-309); `/` on a positive Go
`int` rounds down. -/
def halveFilemod (s : Scores) : Scores :=
  if s.catCode ≥ 10 ∧ s.catFilemod > 0 ∧ s.catFilemod < s.catCode then
    { s with catFilemod := s.catFilemod / 2 }
  else s

/-- The code-plus-debug bonus to architecture (lines 310-312). -/
def archBonus (s : Scores) : Scores :=
  if s.catCode ≥ 6 ∧ s.catDebug ≥ 5 then
    { s with catArchitecture := s.catArchitecture + 3 }
  else s

/-- The scoreboard as it stands when the dominant category is resolved: the
base pass followed by the three corrective rules in program order. -/
def scores (h : Signals) : Scores :=
  archBonus (halveFilemod (techObjectBoost h.reTechObject (baseScores h)))

/-! ## Dominant category resolver -/

/-- One row of the `cats` table. -/
structure catEntry where
  name : Category
  score : Int
  deriving DecidableEq, Repr

/-- The `cats` table (lines 319-330). -/
def cats (s : Scores) : List catEntry :=
  [ ⟨.conversation, s.catConversation⟩,
    ⟨.lookup, s.catLookup⟩,
    ⟨.search, s.catSearch⟩,
    ⟨.content, s.catContent⟩,
    ⟨.filemod, s.catFilemod⟩,
    ⟨.code, s.catCode⟩,
    ⟨.debug, s.catDebug⟩,
    ⟨.architecture, s.catArchitecture⟩,
    ⟨.deploy, s.catDeploy⟩,
    ⟨.config, s.catConfig⟩ ]

/-- The pair `(dominant, maxScore)` carried through the resolver. -/
structure Winner where
  dominant : Category
  maxScore : Int
  deriving DecidableEq, Repr

/-- One iteration of the scan loop (lines 335-338). -/
def scanStep (w : Winner) (c : catEntry) : Winner :=
  if c.score > w.maxScore then { maxScore := c.score, dominant := c.name } else w

/-- The scan over `cats[1:]` starting from conversation (lines 332-339). -/
def scanMax (s : Scores) : Winner :=
  (cats s).tail.foldl scanStep { dominant := .conversation, maxScore := s.catConversation }

/-- The scan followed by the floor rule (lines 332-342). -/
def findDominant (s : Scores) : Winner :=
  let w := scanMax s
  if w.maxScore ≤ 2 then { w with dominant := .conversation } else w

/-- The value of `isQuestionEarly` (line 227). -/
def isQuestionEarly (h : Signals) : Bool :=
  h.reConvEndsQ || h.reQuestionEarly

/-- The tie-breaking override (lines 344-349). -/
def tieBreak (h : Signals) (catConversation : Int) (w : Winner) : Category :=
  if w.dominant ≠ .conversation ∧ isQuestionEarly h = true ∧ h.wc ≤ 6 then
    if w.maxScore - catConversation ≤ 3 then .conversation else w.dominant
  else w.dominant

/-- The final value of `dominant`. -/
def dominant (h : Signals) : Category :=
  tieBreak h (scores h).catConversation (findDominant (scores h))

/-! ## Duration and complexity estimator -/

/-- The triple `(baseTime, complexity, complexityName)`. -/
structure Base where
  baseTime : Int
  complexity : Int
  complexityName : String
  deriving DecidableEq, Repr

/-- The category table (lines 351-376). -/
def baseOf : Category → Base
  | .conversation => ⟨10, 1, "simple"⟩
  | .lookup => ⟨12, 1, "simple"⟩
  | .search => ⟨45, 2, "normal"⟩
  | .content => ⟨50, 2, "normal"⟩
  | .filemod => ⟨40, 2, "normal"⟩
  | .code => ⟨80, 3, "complex"⟩
  | .debug => ⟨90, 3, "complex"⟩
  | .architecture => ⟨120, 3, "complex"⟩
  | .deploy => ⟨60, 2, "normal"⟩
  | .config => ⟨50, 2, "normal"⟩

/-- The value of `isQuestion` (line 379). -/
def isQuestion (h : Signals) : Bool :=
  h.reConvEndsQ || h.reQuestionStart

/-- The first question-dampening rule (lines 380-388). -/
def dampenShort (h : Signals) (dom : Category) (b : Base) : Base :=
  if isQuestion h = true ∧ h.wc ≤ 8 then
    if dom = .debug ∨ dom = .code ∨ dom = .architecture then
      if h.wc ≤ 5 then { complexity := 1, complexityName := "simple", baseTime := 15 }
      else { complexity := 2, complexityName := "normal", baseTime := 25 }
    else b
  else b

/-- The second question-dampening rule (lines 389-394). -/
def dampenOpener (h : Signals) (b : Base) : Base :=
  if isQuestion h = true ∧ h.wc ≤ 12 then
    if h.reQuestionStart = true ∧ b.complexity ≥ 3 then
      { complexity := 2, complexityName := "normal",
        baseTime := if b.baseTime > 40 then 40 else b.baseTime }
    else b
  else b

/-- The base figures after both question-dampening rules (lines 351-394). -/
def dampened (h : Signals) : Base :=
  dampenOpener h (dampenShort h (dominant h) (baseOf (dominant h)))

/-- The triple `(estimated, complexity, complexityName)` after the time
adjustments. -/
structure Estimate where
  estimated : Int
  complexity : Int
  complexityName : String
  deriving DecidableEq, Repr

/-- The multi-step, batch and comma adjustments (lines 398-402). -/
def scopeAdjust (h : Signals) (estimated : Int) : Int :=
  let estimated := if h.reMultiStep then estimated + 30 else estimated
  let estimated := if h.reMultiBatch then estimated + 20 else estimated
  let commaCount : Int := h.commaCount
  if commaCount ≥ 2 then estimated + commaCount * 10 else estimated

/-- The word-count adjustment (lines 404-411). -/
def lengthAdjust (h : Signals) (dom : Category) (e : Estimate) : Estimate :=
  if h.wc > 30 then
    let e := { e with estimated := e.estimated + 40 }
    if e.complexity ≥ 2 then { e with complexity := 3, complexityName := "complex" } else e
  else if h.wc > 15 then
    { e with estimated := e.estimated + 20 }
  else if h.wc ≤ 4 ∧ dom = .conversation then
    if e.estimated > 10 then { e with estimated := 10 } else e
  else e

/-- The two combination bonuses (lines 413-420). -/
def comboAdjust (s : Scores) (e : Estimate) : Estimate :=
  let e : Estimate :=
    if s.catCode ≥ 3 ∧ s.catDebug ≥ 3 then
      { estimated := e.estimated + 30, complexity := 3, complexityName := "complex" }
    else e
  if s.catArchitecture ≥ 3 ∧ s.catCode ≥ 3 then
    { estimated := e.estimated + 40, complexity := 3, complexityName := "complex" }
  else e

/-- The commit-ending bonus (line 421). -/
def commitAdjust (h : Signals) (e : Estimate) : Estimate :=
  if h.reCommitEnd then { e with estimated := e.estimated + 15 } else e

/-- The time adjustments (lines 396-421), applied to the dampened base in
program order. -/
def adjust (h : Signals) (s : Scores) (dom : Category) (b : Base) : Estimate :=
  let e : Estimate :=
    { estimated := scopeAdjust h b.baseTime, complexity := b.complexity,
      complexityName := b.complexityName }
  commitAdjust h (comboAdjust s (lengthAdjust h dom e))

/-- The final estimate of a run. -/
def estimate (h : Signals) : Estimate :=
  adjust h (scores h) (dominant h) (dampened h)

/-! ## Routing and model decision -/

/-- The decision matrix (lines 423-431). -/
def decideRec (estimated complexity : Int) : Recommendation :=
  if estimated ≤ 30 then .execute_direct
  else if estimated ≤ 120 then
    if complexity ≤ 1 then .execute_direct else .spawn
  else .spawn

/-- The tuple `(model, modelName, cost, timeout)`. -/
structure Selection where
  model : String
  modelName : String
  cost : String
  timeout : Int
  deriving DecidableEq, Repr

/-- Model selection (lines 433-444). -/
def selectModel (recommendation : Recommendation) (estimated complexity : Int) : Selection :=
  if recommendation = .spawn then
    if complexity ≥ 3 then
      { model := "anthropic/claude-opus-4-6", modelName := "Opus", cost := "high",
        timeout := min (estimated * 5) 1800 }
    else
      { model := "anthropic/claude-sonnet-4-5", modelName := "Sonnet", cost := "medium",
        timeout := min (estimated * 3) 600 }
  else { model := "", modelName := "", cost := "low", timeout := 10 }

/-- The reasoning trace before the protection check (lines 446-449);
`%d` prints a Go `int` in decimal. -/
def reasoningOf (dom : Category) (e : Estimate) (recommendation : Recommendation) (modelName : String) :
    String :=
  let reasoning := "category=" ++ dom.name ++ " time=" ++ toString e.estimated ++
    "s complexity=" ++ e.complexityName ++ " → " ++ recommendation.name
  if modelName ≠ "" then reasoning ++ (" (" ++ modelName ++ ")") else reasoning

/-- The override marker appended to the reasoning trace (line 457). -/
def overrideMarker : String := " ⚠️ Protection→Sonnet"

/-- The fields of `output` that the decision engine computes.  `Command`,
`Label`, `DryRun` and `UserMessage` are renderings of these together with the
command-line flags; `ComplexityTier` is the integer printed next to the name in
the text report. -/
structure Output where
  Recommendation : Recommendation
  Model : String
  ModelName : String
  Reasoning : String
  TimeoutSeconds : Int
  EstimatedSeconds : Int
  EstimatedCost : String
  Complexity : String
  ComplexityTier : Int
  Category : Category
  ProtectionMode : Bool
  ProtectionOverride : Bool
  deriving DecidableEq, Repr

/-- The value of `rec` of a run. -/
def recommendation (h : Signals) : Recommendation :=
  decideRec (estimate h).estimated (estimate h).complexity

/-- The model selection of a run, before the protection check. -/
def selection (h : Signals) : Selection :=
  selectModel (recommendation h) (estimate h).estimated (estimate h).complexity

/-- The reasoning trace of a run, before the protection check. -/
def reasoning (h : Signals) : String :=
  reasoningOf (dominant h) (estimate h) (recommendation h) (selection h).modelName

/-- The decision computed by `main` (lines 222-458) from the signals of the
task text and the protection flag returned by `readProtection`; the protection
check is lines 451-458. -/
def route (h : Signals) (protection : Bool) : Output :=
  let dom := dominant h
  let e := estimate h
  let sel := selection h
  let protOverride := false
  if protection = true ∧ sel.modelName = "Opus" then
    { Recommendation := recommendation h, Model := "anthropic/claude-sonnet-4-5",
      ModelName := "Sonnet", Reasoning := reasoning h ++ overrideMarker,
      TimeoutSeconds := sel.timeout, EstimatedSeconds := e.estimated,
      EstimatedCost := "medium", Complexity := e.complexityName,
      ComplexityTier := e.complexity, Category := dom, ProtectionMode := protection,
      ProtectionOverride := true }
  else
    { Recommendation := recommendation h, Model := sel.model, ModelName := sel.modelName,
      Reasoning := reasoning h, TimeoutSeconds := sel.timeout,
      EstimatedSeconds := e.estimated, EstimatedCost := sel.cost,
      Complexity := e.complexityName, ComplexityTier := e.complexity, Category := dom,
      ProtectionMode := protection, ProtectionOverride := protOverride }

/-! ## Specification vocabulary -/

/-- The score a scoreboard gives to a category. -/
def Scores.get (s : Scores) : Category → Int
  | .conversation => s.catConversation
  | .lookup => s.catLookup
  | .search => s.catSearch
  | .content => s.catContent
  | .filemod => s.catFilemod
  | .code => s.catCode
  | .debug => s.catDebug
  | .architecture => s.catArchitecture
  | .deploy => s.catDeploy
  | .config => s.catConfig

/-- The position of a category in the declaration order. -/
def Category.index : Category → Nat
  | .conversation => 0
  | .lookup => 1
  | .search => 2
  | .content => 3
  | .filemod => 4
  | .code => 5
  | .debug => 6
  | .architecture => 7
  | .deploy => 8
  | .config => 9

/-- Category `c` is the first one, in declaration order, whose score is the
maximum: every earlier category scores strictly less, every later one at most
as much. -/
def IsFirstMax (s : Scores) (c : Category) : Prop :=
  (∀ d : Category, d.index < c.index → s.get d < s.get c) ∧
  (∀ d : Category, c.index < d.index → s.get d ≤ s.get c)

/-- The resolver of the specification, before the conversational override:
conversation when the maximum of the ten scores is at most 2, otherwise the
first category attaining the maximum. -/
def IsDominant (s : Scores) (c : Category) : Prop :=
  ((∀ d : Category, s.get d ≤ 2) ∧ c = .conversation) ∨
  (¬ (∀ d : Category, s.get d ≤ 2) ∧ IsFirstMax s c)

/-- The state of the scan after the categories of index at most `i` have been
seen: the winner is one of them, carries its own score, beats every earlier
category strictly and every later category seen so far weakly. -/
def ScanInv (s : Scores) (i : Nat) (w : Winner) : Prop :=
  s.get w.dominant = w.maxScore ∧ w.dominant.index ≤ i ∧
  (∀ d : Category, d.index < w.dominant.index → s.get d < w.maxScore) ∧
  (∀ d : Category, w.dominant.index < d.index → d.index ≤ i → s.get d ≤ w.maxScore)

instance (s : Scores) (c : Category) : Decidable (IsFirstMax s c) := by
  unfold IsFirstMax; infer_instance

instance (s : Scores) (c : Category) : Decidable (IsDominant s c) := by
  unfold IsDominant; infer_instance

/-- Rule a of the specification: if code is at least 10 and filemod lies
strictly between 0 and code, halve filemod (integer division). -/
def specRuleA (s : Scores) : Scores :=
  if s.catCode ≥ 10 ∧ 0 < s.catFilemod ∧ s.catFilemod < s.catCode then
    { s with catFilemod := s.catFilemod / 2 }
  else s

/-- Rule b of the specification: if code is at least 6 and debug at least 5,
add 3 to architecture. -/
def specRuleB (s : Scores) : Scores :=
  if s.catCode ≥ 6 ∧ s.catDebug ≥ 5 then
    { s with catArchitecture := s.catArchitecture + 3 }
  else s

/-- Rule c of the specification: if the technical-object pattern matched and
deploy or config is at least 2, add 6 to deploy and 4 to config. -/
def specRuleC (techObject : Bool) (s : Scores) : Scores :=
  if techObject = true ∧ (s.catDeploy ≥ 2 ∨ s.catConfig ≥ 2) then
    { s with catDeploy := s.catDeploy + 6, catConfig := s.catConfig + 4 }
  else s

/-- The corrective rules in the order the specification fixes: a, then b,
then c. -/
def specCorrective (techObject : Bool) (s : Scores) : Scores :=
  specRuleC techObject (specRuleB (specRuleA s))

/-- The corrective rules in the order the program applies them: the
technical-object boost, then the halving, then the architecture bonus. -/
def programCorrective (techObject : Bool) (s : Scores) : Scores :=
  archBonus (halveFilemod (techObjectBoost techObject s))

/-- A tier and a tier name that belong together: (1, simple), (2, normal) or
(3, complex). -/
def TierNamed (complexity : Int) (complexityName : String) : Prop :=
  (complexity = 1 ∧ complexityName = "simple") ∨
  (complexity = 2 ∧ complexityName = "normal") ∨
  (complexity = 3 ∧ complexityName = "complex")

/-- The tier is one of 1, 2, 3 and the name agrees with it in both
directions. -/
def TierAgrees (complexity : Int) (complexityName : String) : Prop :=
  (complexity = 1 ∨ complexity = 2 ∨ complexity = 3) ∧
  (complexity = 1 ↔ complexityName = "simple") ∧
  (complexity = 2 ↔ complexityName = "normal") ∧
  (complexity = 3 ↔ complexityName = "complex")

/-- A right-nested sequence, the shape `parseSeq` produces. -/
def Regex.seqs : List Regex → Regex
  | [] => .empty
  | [a] => a
  | a :: as => .seq a (Regex.seqs as)

/-- A right-nested alternation, the shape `parseAlt` produces. -/
def Regex.alts : List Regex → Regex
  | [] => .fail
  | [a] => a
  | a :: as => .alt a (Regex.alts as)

/-- The atom a pattern character stands for when it is a letter, a space, a
punctuation mark or the wildcard `.`. -/
def Regex.atom (c : Char) : Regex :=
  if c = '.' then .any else .char c

/-- A run of such pattern characters. -/
def Regex.lit (cs : List Char) : Regex :=
  Regex.seqs (cs.map Regex.atom)

/-- The opener `why is`, which `reQuestionStart` lists and `reQuestionEarly`
does not, anchored like the two question-opener patterns. -/
def reWhyIs : Regex :=
  compile r"^\s*why is"

/-- The code-plus-debug bonus alone (lines 413-416). -/
def mixedBonus (s : Scores) (e : Estimate) : Estimate :=
  if s.catCode ≥ 3 ∧ s.catDebug ≥ 3 then
    { estimated := e.estimated + 30, complexity := 3, complexityName := "complex" }
  else e

/-- The architecture-plus-code bonus alone (lines 417-420). -/
def archCodeBonus (s : Scores) (e : Estimate) : Estimate :=
  if s.catArchitecture ≥ 3 ∧ s.catCode ≥ 3 then
    { estimated := e.estimated + 40, complexity := 3, complexityName := "complex" }
  else e

/-! ## Signal extractor: theorems -/

/-- Every pattern of the table lies in the embedded fragment. -/
theorem patterns_compile :
    [reConvGreeting, reConvQuestion, reConvEndsQ, reConvOpinion, reLookupVerb, reLookupTool,
      reLookupRead, reSearchVerb, reSearchDeep, reSearchQuant, reContentVerb, reContentObj,
      reFilemodVerb, reFilemodObj, reCodeKeyword, reCodeCreate, reCodeInfra, reCodeTest,
      reCodeRefactor, reDebugFix, reDebugVerb, reDebugSignal, reDebugTech, reArchKeyword,
      reArchSystem, reArchMulti, reDeployKeyword, reDeployAction, reConfigKeyword,
      reConfigTech, reTechObject, reMultiStep, reMultiBatch, reCommitEnd, reQuestionStart,
      reQuestionEarly].all (fun r => decide (r ≠ Regex.fail)) = true := by
  decide!

/-- The signals of the sample texts, evaluated on the pattern table. -/
theorem signalsOf_samples :
    signalsOf "fix the login bug" "fix the login bug" = sigFixLoginBug ∧
    signalsOf "ensure prod" "ensure prod" = sigEnsureProd ∧
    signalsOf "ensure it" "ensure it" = sigEnsureIt ∧
    signalsOf "the logs?" "the logs?" = sigTheLogs ∧
    signalsOf "fix bug puis bug" "fix bug puis bug" =
      { sigFixLoginBug with reMultiStep := true } ∧
    signalsOf taskFixThenCommit taskFixThenCommit = sigFixThenCommit ∧
    signalsOf "ok" "ok" = sigOk ∧
    signalsOf taskDesign taskDesign = sigDesign ∧
    signalsOf "create a bot" "create a bot" = sigCreateBot ∧
    signalsOf "fix bug?" "fix bug?" = sigFixBugQ ∧
    signalsOf "can you fix the bug here?" "can you fix the bug here?" = sigCanYouFix ∧
    signalsOf "fix the api bug" "fix the api bug" = sigFixApiBug := by
  decide!

theorem signalsOf_fixLoginBug :
    signalsOf "fix the login bug" "fix the login bug" = sigFixLoginBug :=
  signalsOf_samples.1

theorem signalsOf_ensureProd : signalsOf "ensure prod" "ensure prod" = sigEnsureProd :=
  signalsOf_samples.2.1

theorem signalsOf_ensureIt : signalsOf "ensure it" "ensure it" = sigEnsureIt :=
  signalsOf_samples.2.2.1

theorem signalsOf_theLogs : signalsOf "the logs?" "the logs?" = sigTheLogs :=
  signalsOf_samples.2.2.2.1

theorem signalsOf_fixBugPuisBug :
    signalsOf "fix bug puis bug" "fix bug puis bug" =
      { sigFixLoginBug with reMultiStep := true } :=
  signalsOf_samples.2.2.2.2.1

theorem signalsOf_fixThenCommit :
    signalsOf taskFixThenCommit taskFixThenCommit = sigFixThenCommit :=
  signalsOf_samples.2.2.2.2.2.1

theorem signalsOf_ok : signalsOf "ok" "ok" = sigOk :=
  signalsOf_samples.2.2.2.2.2.2.1

theorem signalsOf_design : signalsOf taskDesign taskDesign = sigDesign :=
  signalsOf_samples.2.2.2.2.2.2.2.1

theorem signalsOf_createBot : signalsOf "create a bot" "create a bot" = sigCreateBot :=
  signalsOf_samples.2.2.2.2.2.2.2.2.1

theorem signalsOf_fixBugQ : signalsOf "fix bug?" "fix bug?" = sigFixBugQ :=
  signalsOf_samples.2.2.2.2.2.2.2.2.2.1

theorem signalsOf_canYouFix :
    signalsOf "can you fix the bug here?" "can you fix the bug here?" = sigCanYouFix :=
  signalsOf_samples.2.2.2.2.2.2.2.2.2.2.1

theorem signalsOf_fixApiBug :
    signalsOf "fix the api bug" "fix the api bug" = sigFixApiBug :=
  signalsOf_samples.2.2.2.2.2.2.2.2.2.2.2

/-! ## Routing and model decision: theorems -/

theorem route_Recommendation (h : Signals) (p : Bool) :
    (route h p).Recommendation = recommendation h := by
  unfold route; dsimp only; split_ifs <;> rfl

theorem route_EstimatedSeconds (h : Signals) (p : Bool) :
    (route h p).EstimatedSeconds = (estimate h).estimated := by
  unfold route; dsimp only; split_ifs <;> rfl

theorem route_ComplexityTier (h : Signals) (p : Bool) :
    (route h p).ComplexityTier = (estimate h).complexity := by
  unfold route; dsimp only; split_ifs <;> rfl

theorem route_Complexity (h : Signals) (p : Bool) :
    (route h p).Complexity = (estimate h).complexityName := by
  unfold route; dsimp only; split_ifs <;> rfl

theorem route_Category (h : Signals) (p : Bool) :
    (route h p).Category = dominant h := by
  unfold route; dsimp only; split_ifs <;> rfl

theorem route_TimeoutSeconds (h : Signals) (p : Bool) :
    (route h p).TimeoutSeconds = (selection h).timeout := by
  unfold route; dsimp only; split_ifs <;> rfl

/-- With the protection flag inactive the output carries the selection
unchanged. -/
theorem route_inactive (h : Signals) :
    route h false =
      { Recommendation := recommendation h, Model := (selection h).model,
        ModelName := (selection h).modelName, Reasoning := reasoning h,
        TimeoutSeconds := (selection h).timeout, EstimatedSeconds := (estimate h).estimated,
        EstimatedCost := (selection h).cost, Complexity := (estimate h).complexityName,
        ComplexityTier := (estimate h).complexity, Category := dominant h,
        ProtectionMode := false, ProtectionOverride := false } := by
  simp [route]

/-- With the protection flag active and `Opus` selected the output is
downgraded. -/
theorem route_active_opus (h : Signals) (hm : (selection h).modelName = "Opus") :
    route h true =
      { Recommendation := recommendation h, Model := "anthropic/claude-sonnet-4-5",
        ModelName := "Sonnet", Reasoning := reasoning h ++ overrideMarker,
        TimeoutSeconds := (selection h).timeout, EstimatedSeconds := (estimate h).estimated,
        EstimatedCost := "medium", Complexity := (estimate h).complexityName,
        ComplexityTier := (estimate h).complexity, Category := dominant h,
        ProtectionMode := true, ProtectionOverride := true } := by
  simp [route, hm]

/-- With the protection flag active and another model selected the output
carries the selection unchanged. -/
theorem route_active_other (h : Signals) (hm : (selection h).modelName ≠ "Opus") :
    route h true =
      { Recommendation := recommendation h, Model := (selection h).model,
        ModelName := (selection h).modelName, Reasoning := reasoning h,
        TimeoutSeconds := (selection h).timeout, EstimatedSeconds := (estimate h).estimated,
        EstimatedCost := (selection h).cost, Complexity := (estimate h).complexityName,
        ComplexityTier := (estimate h).complexity, Category := dominant h,
        ProtectionMode := true, ProtectionOverride := false } := by
  simp [route, hm]

/-- The program's `min` is the minimum of its arguments. -/
theorem min_eq (a b : Int) : min a b = Min.min a b := by
  unfold min
  rcases lt_or_le a b with h | h
  · rw [if_pos h, min_eq_left h.le]
  · rw [if_neg (not_lt.mpr h), min_eq_right h]

/-- The three outcomes of model selection. -/
theorem selectModel_cases (r : Recommendation) (e c : Int) :
    (r = .execute_direct ∧ selectModel r e c = ⟨"", "", "low", 10⟩) ∨
    (r = .spawn ∧ 3 ≤ c ∧ selectModel r e c =
      ⟨"anthropic/claude-opus-4-6", "Opus", "high", Min.min (5 * e) 1800⟩) ∨
    (r = .spawn ∧ c < 3 ∧ selectModel r e c =
      ⟨"anthropic/claude-sonnet-4-5", "Sonnet", "medium", Min.min (3 * e) 600⟩) := by
  cases r
  · left; simp [selectModel]
  · by_cases hc : 3 ≤ c
    · right; left
      refine ⟨rfl, hc, ?_⟩
      simp only [selectModel, min_eq, ge_iff_le, hc, if_true, mul_comm e]
    · right; right
      refine ⟨rfl, not_le.mp hc, ?_⟩
      simp only [selectModel, min_eq, ge_iff_le, hc, if_true, if_false, mul_comm e]

/-- C1: the recommendation is a function of the final pair
(estimatedSeconds, complexityTier): at most 30 seconds gives execute_direct;
between 31 and 120 seconds gives execute_direct exactly when the tier is at
most 1 and spawn otherwise; above 120 seconds gives spawn.  Hence
execute_direct implies at most 120 seconds and spawn implies more than 30. -/
theorem recommendation_matrix (h : Signals) (protection : Bool) :
    ((route h protection).EstimatedSeconds ≤ 30 →
        (route h protection).Recommendation = .execute_direct) ∧
    (30 < (route h protection).EstimatedSeconds → (route h protection).EstimatedSeconds ≤ 120 →
        ((route h protection).Recommendation = .execute_direct ↔
          (route h protection).ComplexityTier ≤ 1) ∧
        ((route h protection).Recommendation = .spawn ↔
          ¬ (route h protection).ComplexityTier ≤ 1)) ∧
    ((route h protection).EstimatedSeconds > 120 →
        (route h protection).Recommendation = .spawn) ∧
    ((route h protection).Recommendation = .execute_direct →
        (route h protection).EstimatedSeconds ≤ 120) ∧
    ((route h protection).Recommendation = .spawn →
        (route h protection).EstimatedSeconds > 30) := by
  rw [route_Recommendation, route_EstimatedSeconds, route_ComplexityTier, recommendation]
  generalize (estimate h).estimated = e
  generalize (estimate h).complexity = c
  unfold decideRec
  refine ⟨?_, ?_, ?_, ?_, ?_⟩ <;> intros <;> split_ifs at * <;> simp_all <;> omega

/-- C2, as stated, fails: on the text `fix the login bug` with the protection
flag active the decision is spawn with tier 3, yet the model is not Opus. -/
theorem heavy_model_counterexample :
    (route (signalsOf "fix the login bug" "fix the login bug") true).Recommendation = .spawn ∧
    (route (signalsOf "fix the login bug" "fix the login bug") true).ComplexityTier ≥ 3 ∧
    ¬ ((route (signalsOf "fix the login bug" "fix the login bug") true).Model =
          "anthropic/claude-opus-4-6" ∧
       (route (signalsOf "fix the login bug" "fix the login bug") true).ModelName = "Opus" ∧
       (route (signalsOf "fix the login bug" "fix the login bug") true).TimeoutSeconds =
         Min.min (5 * (route (signalsOf "fix the login bug" "fix the login bug") true).EstimatedSeconds)
           1800) := by
  rw [signalsOf_fixLoginBug]
  decide

/-- C2, amended: whenever the decision is spawn with tier at least 3, the
timeout is min(5 * estimatedSeconds, 1800) for either value of the protection
flag; the model is the heavy one (Opus) when the flag is inactive, and the
medium one (Sonnet), with the override recorded, when the flag is active. -/
theorem heavy_model_selection (h : Signals) (protection : Bool)
    (hs : (route h protection).Recommendation = .spawn)
    (ht : (route h protection).ComplexityTier ≥ 3) :
    (route h protection).TimeoutSeconds =
        Min.min (5 * (route h protection).EstimatedSeconds) 1800 ∧
    (protection = false →
        (route h protection).Model = "anthropic/claude-opus-4-6" ∧
        (route h protection).ModelName = "Opus") ∧
    (protection = true →
        (route h protection).Model = "anthropic/claude-sonnet-4-5" ∧
        (route h protection).ModelName = "Sonnet" ∧
        (route h protection).ProtectionOverride = true) := by
  rw [route_Recommendation] at hs
  rw [route_ComplexityTier] at ht
  have hsel : selection h =
      ⟨"anthropic/claude-opus-4-6", "Opus", "high", Min.min (5 * (estimate h).estimated) 1800⟩ := by
    rcases selectModel_cases (recommendation h) (estimate h).estimated (estimate h).complexity
      with ⟨hr, _⟩ | ⟨_, _, he⟩ | ⟨_, hc, _⟩
    · rw [hs] at hr; cases hr
    · exact he
    · omega
  refine ⟨?_, ?_, ?_⟩
  · rw [route_TimeoutSeconds, route_EstimatedSeconds, hsel]
  · rintro rfl
    rw [route_inactive, hsel]
    exact ⟨rfl, rfl⟩
  · rintro rfl
    rw [route_active_opus h (by rw [hsel])]
    exact ⟨rfl, rfl, rfl⟩

/-- C2, amended, applied to the text `fix the login bug` with the flag
active. -/
theorem heavy_model_selection_witness :
    (route (signalsOf "fix the login bug" "fix the login bug") true).TimeoutSeconds =
        Min.min (5 * (route (signalsOf "fix the login bug" "fix the login bug") true).EstimatedSeconds)
          1800 ∧
    (true = false →
        (route (signalsOf "fix the login bug" "fix the login bug") true).Model =
          "anthropic/claude-opus-4-6" ∧
        (route (signalsOf "fix the login bug" "fix the login bug") true).ModelName = "Opus") ∧
    (true = true →
        (route (signalsOf "fix the login bug" "fix the login bug") true).Model =
          "anthropic/claude-sonnet-4-5" ∧
        (route (signalsOf "fix the login bug" "fix the login bug") true).ModelName = "Sonnet" ∧
        (route (signalsOf "fix the login bug" "fix the login bug") true).ProtectionOverride = true) :=
  heavy_model_selection (signalsOf "fix the login bug" "fix the login bug") true
    (by rw [signalsOf_fixLoginBug]; decide) (by rw [signalsOf_fixLoginBug]; decide)

/-- C3: with the protection flag inactive, execute_direct carries no model, cost
tier low and timeout 10; spawn with tier at least 3 carries Opus, cost tier
high and timeout min(5 * estimatedSeconds, 1800); spawn with tier below 3
carries Sonnet, cost tier medium and timeout min(3 * estimatedSeconds, 600).
A model is assigned exactly when the recommendation is spawn. -/
theorem model_selection_inactive (h : Signals) :
    ((route h false).Recommendation = .execute_direct →
        (route h false).Model = "" ∧ (route h false).ModelName = "" ∧
        (route h false).EstimatedCost = "low" ∧ (route h false).TimeoutSeconds = 10) ∧
    ((route h false).Recommendation = .spawn → (route h false).ComplexityTier ≥ 3 →
        (route h false).Model = "anthropic/claude-opus-4-6" ∧
        (route h false).ModelName = "Opus" ∧
        (route h false).EstimatedCost = "high" ∧
        (route h false).TimeoutSeconds =
          Min.min (5 * (route h false).EstimatedSeconds) 1800) ∧
    ((route h false).Recommendation = .spawn → (route h false).ComplexityTier < 3 →
        (route h false).Model = "anthropic/claude-sonnet-4-5" ∧
        (route h false).ModelName = "Sonnet" ∧
        (route h false).EstimatedCost = "medium" ∧
        (route h false).TimeoutSeconds =
          Min.min (3 * (route h false).EstimatedSeconds) 600) ∧
    ((route h false).Model ≠ "" ↔ (route h false).Recommendation = .spawn) ∧
    ((route h false).ModelName ≠ "" ↔ (route h false).Recommendation = .spawn) := by
  rw [route_inactive]
  dsimp only
  rcases selectModel_cases (recommendation h) (estimate h).estimated (estimate h).complexity
    with ⟨hr, he⟩ | ⟨hr, hc, he⟩ | ⟨hr, hc, he⟩
  · rw [selection, he, hr]
    simp
  · rw [selection, he, hr]
    refine ⟨by simp, fun _ _ => ⟨rfl, rfl, rfl, rfl⟩, fun _ h3 => ?_, ?_, ?_⟩
    · omega
    · simp
    · simp
  · rw [selection, he, hr]
    refine ⟨by simp, fun _ h3 => ?_, fun _ _ => ⟨rfl, rfl, rfl, rfl⟩, ?_, ?_⟩
    · omega
    · simp
    · simp

/-- C4: the run with the protection flag active agrees with the run with it
inactive on recommendation, category, estimatedSeconds, complexity tier and
name, and timeout.  When the inactive run selects the heavy model, the active
run carries Sonnet, cost tier medium, the override flag, and the inactive trace
followed by the override marker; otherwise model, cost and trace are the same
and the override flag is false.  The inactive run never sets the override
flag. -/
theorem protection_frame (h : Signals) :
    (route h true).Recommendation = (route h false).Recommendation ∧
    (route h true).Category = (route h false).Category ∧
    (route h true).EstimatedSeconds = (route h false).EstimatedSeconds ∧
    (route h true).ComplexityTier = (route h false).ComplexityTier ∧
    (route h true).Complexity = (route h false).Complexity ∧
    (route h true).TimeoutSeconds = (route h false).TimeoutSeconds ∧
    ((route h false).Model = "anthropic/claude-opus-4-6" →
        (route h true).Model = "anthropic/claude-sonnet-4-5" ∧
        (route h true).ModelName = "Sonnet" ∧
        (route h true).EstimatedCost = "medium" ∧
        (route h true).ProtectionOverride = true ∧
        (route h true).Reasoning = (route h false).Reasoning ++ overrideMarker) ∧
    ((route h false).Model ≠ "anthropic/claude-opus-4-6" →
        (route h true).Model = (route h false).Model ∧
        (route h true).ModelName = (route h false).ModelName ∧
        (route h true).EstimatedCost = (route h false).EstimatedCost ∧
        (route h true).Reasoning = (route h false).Reasoning ∧
        (route h true).ProtectionOverride = false) ∧
    (route h false).ProtectionOverride = false := by
  refine ⟨by simp only [route_Recommendation], by simp only [route_Category],
    by simp only [route_EstimatedSeconds], by simp only [route_ComplexityTier],
    by simp only [route_Complexity], by simp only [route_TimeoutSeconds], ?_, ?_, ?_⟩
  · intro hm
    rw [route_inactive] at hm ⊢
    dsimp only at hm ⊢
    have hn : (selection h).modelName = "Opus" := by
      rcases selectModel_cases (recommendation h) (estimate h).estimated
        (estimate h).complexity with ⟨_, he⟩ | ⟨_, _, he⟩ | ⟨_, _, he⟩ <;>
        rw [selection, he] at hm <;> rw [selection, he]
      · simp at hm
      · simp at hm
    rw [route_active_opus h hn]
    exact ⟨rfl, rfl, rfl, rfl, rfl⟩
  · intro hm
    rw [route_inactive] at hm ⊢
    dsimp only at hm ⊢
    have hn : (selection h).modelName ≠ "Opus" := by
      rcases selectModel_cases (recommendation h) (estimate h).estimated
        (estimate h).complexity with ⟨_, he⟩ | ⟨_, _, he⟩ | ⟨_, _, he⟩ <;>
        rw [selection, he] at hm <;> rw [selection, he]
      · simp
      · exact absurd rfl hm
      · simp
    rw [route_active_other h hn]
    exact ⟨rfl, rfl, rfl, rfl, rfl⟩
  · rw [route_inactive]

/-! ## Dominant category resolver: theorems -/

theorem Category.index_injective (c d : Category) (h : c.index = d.index) : c = d := by
  cases c <;> cases d <;> first | rfl | (simp [Category.index] at h)

theorem Category.index_le (c : Category) : c.index ≤ 9 := by
  cases c <;> simp [Category.index]

/-- One iteration of the scan preserves the invariant. -/
theorem scanInv_step (s : Scores) (i : Nat) (w : Winner) (c : catEntry)
    (hw : ScanInv s i w) (hi : c.name.index = i + 1) (hc : c.score = s.get c.name) :
    ScanInv s (i + 1) (scanStep w c) := by
  obtain ⟨h1, h2, h3, h4⟩ := hw
  unfold scanStep
  split_ifs with hgt
  · refine ⟨hc.symm, hi.le, ?_, ?_⟩
    · intro d hd
      dsimp only at hd ⊢
      rcases lt_trichotomy d.index w.dominant.index with hlt | heq | hgt2
      · have := h3 d hlt; omega
      · have := Category.index_injective _ _ heq; subst this; omega
      · have := h4 d hgt2 (by omega); omega
    · intro d hd hd2
      dsimp only at hd hd2
      omega
  · refine ⟨h1, by omega, h3, ?_⟩
    intro d hd hd2
    rcases Nat.lt_or_ge d.index (i + 1) with hlt | hge
    · exact h4 d hd (by omega)
    · have := Category.index_injective d c.name (by omega)
      subst this
      omega

/-- The scan ends in the invariant over all ten categories. -/
theorem scanMax_inv (s : Scores) : ScanInv s 9 (scanMax s) := by
  have h0 : ScanInv s 0 { dominant := .conversation, maxScore := s.catConversation } := by
    refine ⟨rfl, le_refl _, ?_, ?_⟩
    · intro d hd; simp [Category.index] at hd
    · intro d hd hd2
      dsimp only at hd
      omega
  simp only [scanMax, cats, List.tail, List.foldl]
  exact scanInv_step s 8 _ _ (scanInv_step s 7 _ _ (scanInv_step s 6 _ _ (scanInv_step s 5 _ _
    (scanInv_step s 4 _ _ (scanInv_step s 3 _ _ (scanInv_step s 2 _ _ (scanInv_step s 1 _ _
    (scanInv_step s 0 _ _ h0 rfl rfl) rfl rfl) rfl rfl) rfl rfl) rfl rfl) rfl rfl) rfl rfl)
    rfl rfl) rfl rfl

/-- The winner of the scan is the first category attaining the maximum, and
`maxScore` is its score. -/
theorem scanMax_spec (s : Scores) :
    s.get (scanMax s).dominant = (scanMax s).maxScore ∧ IsFirstMax s (scanMax s).dominant := by
  obtain ⟨h1, _, h3, h4⟩ := scanMax_inv s
  refine ⟨h1, fun d hd => ?_, fun d hd => ?_⟩
  · rw [h1]; exact h3 d hd
  · rw [h1]; exact h4 d hd (Category.index_le d)

/-- Every score is at most the score of a first maximum. -/
theorem IsFirstMax.le (s : Scores) (c d : Category) (hc : IsFirstMax s c) :
    s.get d ≤ s.get c := by
  rcases lt_trichotomy d.index c.index with hlt | heq | hgt
  · exact (hc.1 d hlt).le
  · rw [Category.index_injective _ _ heq]
  · exact hc.2 d hgt

/-- There is at most one first maximum. -/
theorem IsFirstMax.unique (s : Scores) (c d : Category) (hc : IsFirstMax s c)
    (hd : IsFirstMax s d) : c = d := by
  rcases lt_trichotomy c.index d.index with hlt | heq | hgt
  · have h1 := hd.1 c hlt
    have h2 := hc.2 d hlt
    omega
  · exact Category.index_injective _ _ heq
  · have h1 := hc.1 d hgt
    have h2 := hd.2 c hgt
    omega

/-- The floor rule leaves `maxScore` alone and keeps the scan's winner when the
maximum exceeds 2. -/
theorem findDominant_eq (s : Scores) :
    (findDominant s).maxScore = (scanMax s).maxScore ∧
    ((scanMax s).maxScore ≤ 2 → (findDominant s).dominant = .conversation) ∧
    (2 < (scanMax s).maxScore → (findDominant s).dominant = (scanMax s).dominant) := by
  unfold findDominant
  dsimp only
  split_ifs with h
  · exact ⟨rfl, fun _ => rfl, fun h2 => by omega⟩
  · exact ⟨rfl, fun h2 => absurd h2 h, fun _ => rfl⟩

/-- C5: before the conversational override the resolver returns conversation
when the maximum of the ten scores is at most 2, and otherwise the first
category in declaration order whose score is the maximum (earlier categories
score strictly less, later ones at most as much).  Exactly one category is
dominant, a dominant category other than conversation scores more than 2, and
`maxScore` is the maximum of the ten scores. -/
theorem dominant_resolution (s : Scores) :
    ((∀ d : Category, s.get d ≤ 2) → (findDominant s).dominant = .conversation) ∧
    (¬ (∀ d : Category, s.get d ≤ 2) → IsFirstMax s (findDominant s).dominant) ∧
    (∀ c : Category, IsDominant s c ↔ c = (findDominant s).dominant) ∧
    ((findDominant s).dominant ≠ .conversation → 2 < s.get (findDominant s).dominant) ∧
    ((∀ d : Category, s.get d ≤ (findDominant s).maxScore) ∧
      ∃ d : Category, s.get d = (findDominant s).maxScore) := by
  obtain ⟨hget, hfirst⟩ := scanMax_spec s
  obtain ⟨hmax, hlow, hhigh⟩ := findDominant_eq s
  have hfloor : (∀ d : Category, s.get d ≤ 2) → (findDominant s).dominant = .conversation :=
    fun hall => hlow (hget ▸ hall _)
  have hkeep : ¬ (∀ d : Category, s.get d ≤ 2) → IsFirstMax s (findDominant s).dominant := by
    intro hall
    have h2 : 2 < (scanMax s).maxScore := by
      by_contra hle
      exact hall fun d => le_trans (IsFirstMax.le s _ d hfirst) (hget ▸ not_lt.mp hle)
    rw [hhigh h2]
    exact hfirst
  refine ⟨hfloor, hkeep, ?_, ?_, ?_, ?_⟩
  · intro c
    constructor
    · rintro (⟨hall, rfl⟩ | ⟨hall, hc⟩)
      · exact (hfloor hall).symm
      · exact IsFirstMax.unique s _ _ hc (hkeep hall)
    · rintro rfl
      by_cases hall : ∀ d : Category, s.get d ≤ 2
      · exact Or.inl ⟨hall, hfloor hall⟩
      · exact Or.inr ⟨hall, hkeep hall⟩
  · intro hne
    have h2 : 2 < (scanMax s).maxScore := by
      by_contra hle
      exact hne (hlow (not_lt.mp hle))
    rw [hhigh h2, hget]
    exact h2
  · intro d
    rw [hmax, ← hget]
    exact IsFirstMax.le s _ d hfirst
  · exact ⟨(scanMax s).dominant, by rw [hmax, hget]⟩

/-! ## Category scorer: theorems -/

theorem baseScores_nonneg (h : Signals) (c : Category) : 0 ≤ (baseScores h).get c := by
  cases c <;> simp only [Scores.get, baseScores] <;> split_ifs <;> omega

theorem techObjectBoost_nonneg (b : Bool) (s : Scores) (hs : ∀ c : Category, 0 ≤ s.get c)
    (c : Category) : 0 ≤ (techObjectBoost b s).get c := by
  have h8 := hs .deploy
  have h9 := hs .config
  have hc := hs c
  unfold techObjectBoost
  split_ifs <;> cases c <;> simp only [Scores.get] at * <;> omega

theorem halveFilemod_nonneg (s : Scores) (hs : ∀ c : Category, 0 ≤ s.get c)
    (c : Category) : 0 ≤ (halveFilemod s).get c := by
  have h4 := hs .filemod
  have hc := hs c
  unfold halveFilemod
  split_ifs <;> cases c <;> simp only [Scores.get] at * <;> omega

theorem archBonus_nonneg (s : Scores) (hs : ∀ c : Category, 0 ≤ s.get c)
    (c : Category) : 0 ≤ (archBonus s).get c := by
  have h7 := hs .architecture
  have hc := hs c
  unfold archBonus
  split_ifs <;> cases c <;> simp only [Scores.get] at * <;> omega

/-- C8: each of the ten scores is at least 0 after the base pass, after the
technical-object boost, after the filemod halving and after the architecture
bonus, for every combination of pattern hits. -/
theorem scores_nonneg (h : Signals) (c : Category) :
    0 ≤ (baseScores h).get c ∧
    0 ≤ (techObjectBoost h.reTechObject (baseScores h)).get c ∧
    0 ≤ (halveFilemod (techObjectBoost h.reTechObject (baseScores h))).get c ∧
    0 ≤ (scores h).get c :=
  ⟨baseScores_nonneg h c,
   techObjectBoost_nonneg _ _ (baseScores_nonneg h) c,
   halveFilemod_nonneg _ (techObjectBoost_nonneg _ _ (baseScores_nonneg h)) c,
   archBonus_nonneg _
     (halveFilemod_nonneg _ (techObjectBoost_nonneg _ _ (baseScores_nonneg h))) c⟩

/-- When the base pass leaves every score at most 2 and the technical-object
boost does not fire, the corrective rules change nothing. -/
theorem scores_eq_baseScores (h : Signals)
    (hbase : ∀ c : Category, (baseScores h).get c ≤ 2)
    (hboost : ¬ (h.reTechObject = true ∧
      ((baseScores h).catDeploy ≥ 2 ∨ (baseScores h).catConfig ≥ 2))) :
    scores h = baseScores h := by
  have hcode : (baseScores h).catCode ≤ 2 := hbase .code
  have h1 : techObjectBoost h.reTechObject (baseScores h) = baseScores h := by
    unfold techObjectBoost
    split_ifs with ht hd
    · exact absurd ⟨ht, hd⟩ hboost
    · rfl
    · rfl
  have h2 : halveFilemod (baseScores h) = baseScores h := by
    unfold halveFilemod
    rw [if_neg]
    omega
  have h3 : archBonus (baseScores h) = baseScores h := by
    unfold archBonus
    rw [if_neg]
    omega
  rw [scores, h1, h2, h3]

/-- C6, as stated, fails: on the text `ensure prod` every base-pass score is at
most 2 (deploy 2, config 2, the rest 0), yet the technical-object boost lifts
deploy to 8 and the dominant category is deploy. -/
theorem floor_counterexample :
    (∀ c : Category, (baseScores (signalsOf "ensure prod" "ensure prod")).get c ≤ 2) ∧
    dominant (signalsOf "ensure prod" "ensure prod") = .deploy ∧
    ¬ (dominant (signalsOf "ensure prod" "ensure prod") = .conversation) := by
  rw [signalsOf_ensureProd]
  decide

/-- C6, amended: when the base-pass score of every category is at most 2 and
the technical-object boost does not fire (the technical-object pattern does
not match, or deploy and config are both below 2 after the base pass), the
dominant category is conversation. -/
theorem floor_property (h : Signals)
    (hbase : ∀ c : Category, (baseScores h).get c ≤ 2)
    (hboost : ¬ (h.reTechObject = true ∧
      ((baseScores h).catDeploy ≥ 2 ∨ (baseScores h).catConfig ≥ 2))) :
    dominant h = .conversation := by
  have hs := scores_eq_baseScores h hbase hboost
  obtain ⟨hget, _⟩ := scanMax_spec (scores h)
  have hlow : (findDominant (scores h)).dominant = .conversation := by
    apply (findDominant_eq (scores h)).2.1
    rw [← hget, hs]
    exact hbase _
  unfold dominant tieBreak
  rw [hlow]
  simp

/-- C6, amended, applied to the text `ensure it`, whose base pass gives deploy 2
and config 2 with no technical object. -/
theorem floor_property_witness :
    (∀ c : Category, (baseScores (signalsOf "ensure it" "ensure it")).get c ≤ 2) ∧
    dominant (signalsOf "ensure it" "ensure it") = .conversation :=
  ⟨by rw [signalsOf_ensureIt]; decide,
   floor_property (signalsOf "ensure it" "ensure it")
    (by rw [signalsOf_ensureIt]; decide) (by rw [signalsOf_ensureIt]; decide)⟩

/-- A dominant category other than conversation carries the winning score. -/
theorem findDominant_score (s : Scores) (hne : (findDominant s).dominant ≠ .conversation) :
    s.get (findDominant s).dominant = (findDominant s).maxScore := by
  obtain ⟨hmax, hlow, hhigh⟩ := findDominant_eq s
  have h2 : 2 < (scanMax s).maxScore := by
    by_contra hle
    exact hne (hlow (not_lt.mp hle))
  rw [hhigh h2, hmax]
  exact (scanMax_spec s).1

/-- C7: when the dominant category after max-selection and floor is not
conversation, the final dominant category is conversation exactly when the
text is question-like (ends in a question mark or matches the looser opener),
has at most 6 words, and the winning score exceeds the conversation score by
at most 3; in every other case the dominant category is left unchanged. -/
theorem conversational_override (h : Signals)
    (hne : (findDominant (scores h)).dominant ≠ .conversation) :
    (dominant h = .conversation ↔
      ((h.reConvEndsQ = true ∨ h.reQuestionEarly = true) ∧ h.wc ≤ 6 ∧
        (scores h).get (findDominant (scores h)).dominant -
          (scores h).get .conversation ≤ 3)) ∧
    (¬ ((h.reConvEndsQ = true ∨ h.reQuestionEarly = true) ∧ h.wc ≤ 6 ∧
        (scores h).get (findDominant (scores h)).dominant -
          (scores h).get .conversation ≤ 3) →
      dominant h = (findDominant (scores h)).dominant) := by
  rw [findDominant_score (scores h) hne]
  have hq : isQuestionEarly h = true ↔ (h.reConvEndsQ = true ∨ h.reQuestionEarly = true) := by
    simp [isQuestionEarly]
  unfold dominant tieBreak
  simp only [Scores.get]
  split_ifs with h1 h2
  · exact ⟨⟨fun _ => ⟨hq.mp h1.2.1, h1.2.2, h2⟩, fun _ => rfl⟩,
      fun hn => absurd ⟨hq.mp h1.2.1, h1.2.2, h2⟩ hn⟩
  · exact ⟨⟨fun hc => absurd hc hne, fun hc => absurd hc.2.2 h2⟩, fun _ => rfl⟩
  · exact ⟨⟨fun hc => absurd hc hne, fun hc => absurd ⟨hne, hq.mpr hc.1, hc.2.1⟩ h1⟩,
      fun _ => rfl⟩

/-- C7 applied to the text `the logs?`: lookup wins the scan with 4 against 3
for conversation, and the override turns the dominant category into
conversation. -/
theorem conversational_override_witness :
    (findDominant (scores (signalsOf "the logs?" "the logs?"))).dominant = .lookup ∧
    dominant (signalsOf "the logs?" "the logs?") = .conversation ∧
    (dominant (signalsOf "the logs?" "the logs?") = .conversation ↔
      (((signalsOf "the logs?" "the logs?").reConvEndsQ = true ∨
          (signalsOf "the logs?" "the logs?").reQuestionEarly = true) ∧
        (signalsOf "the logs?" "the logs?").wc ≤ 6 ∧
        (scores (signalsOf "the logs?" "the logs?")).get
            (findDominant (scores (signalsOf "the logs?" "the logs?"))).dominant -
          (scores (signalsOf "the logs?" "the logs?")).get .conversation ≤ 3)) ∧
    (¬ (((signalsOf "the logs?" "the logs?").reConvEndsQ = true ∨
          (signalsOf "the logs?" "the logs?").reQuestionEarly = true) ∧
        (signalsOf "the logs?" "the logs?").wc ≤ 6 ∧
        (scores (signalsOf "the logs?" "the logs?")).get
            (findDominant (scores (signalsOf "the logs?" "the logs?"))).dominant -
          (scores (signalsOf "the logs?" "the logs?")).get .conversation ≤ 3) →
      dominant (signalsOf "the logs?" "the logs?") =
        (findDominant (scores (signalsOf "the logs?" "the logs?"))).dominant) :=
  ⟨by rw [signalsOf_theLogs]; decide, by rw [signalsOf_theLogs]; decide,
   conversational_override (signalsOf "the logs?" "the logs?") (by rw [signalsOf_theLogs]; decide)⟩

/-! ## Duration and complexity estimator: theorems -/

/-- The scoreboard, the dominant category and the dampened base do not read
the multi-step signal. -/
theorem multiStep_frame (h : Signals) (b : Bool) :
    scores { h with reMultiStep := b } = scores h ∧
    dominant { h with reMultiStep := b } = dominant h ∧
    dampened { h with reMultiStep := b } = dampened h :=
  ⟨rfl, rfl, rfl⟩

/-- Switching the multi-step signal on raises the scope adjustment by 30. -/
theorem scopeAdjust_multiStep (h : Signals) (x : Int) :
    scopeAdjust { h with reMultiStep := true } x =
      scopeAdjust { h with reMultiStep := false } x + 30 := by
  simp only [scopeAdjust, if_true, Bool.false_eq_true, if_false]
  split_ifs <;> omega

/-- The word-count adjustment is monotone in the running estimate and reads
the complexity only. -/
theorem lengthAdjust_mono (h : Signals) (dom : Category) (e e' : Estimate)
    (hle : e.estimated ≤ e'.estimated) (hc : e.complexity = e'.complexity)
    (hn : e.complexityName = e'.complexityName) :
    (lengthAdjust h dom e).estimated ≤ (lengthAdjust h dom e').estimated ∧
    (lengthAdjust h dom e).complexity = (lengthAdjust h dom e').complexity ∧
    (lengthAdjust h dom e).complexityName = (lengthAdjust h dom e').complexityName := by
  unfold lengthAdjust
  dsimp only
  rw [hc]
  split_ifs <;> simp only [true_and, and_true, hc, hn] <;> omega

/-- The combination bonuses are monotone in the running estimate. -/
theorem comboAdjust_mono (s : Scores) (e e' : Estimate)
    (hle : e.estimated ≤ e'.estimated) (hc : e.complexity = e'.complexity)
    (hn : e.complexityName = e'.complexityName) :
    (comboAdjust s e).estimated ≤ (comboAdjust s e').estimated ∧
    (comboAdjust s e).complexity = (comboAdjust s e').complexity ∧
    (comboAdjust s e).complexityName = (comboAdjust s e').complexityName := by
  unfold comboAdjust
  dsimp only
  split_ifs <;> simp only [true_and, and_true, hc, hn] <;> omega

/-- The commit-ending bonus is monotone in the running estimate. -/
theorem commitAdjust_mono (h : Signals) (e e' : Estimate)
    (hle : e.estimated ≤ e'.estimated) :
    (commitAdjust h e).estimated ≤ (commitAdjust h e').estimated := by
  unfold commitAdjust
  split_ifs
  · dsimp only
    omega
  · exact hle


/-- C9: when two inputs agree on every pattern hit, on the word count and on
the comma count, except that the multi-step connective pattern matches in the
second and not in the first, estimatedSeconds of the second is at least
estimatedSeconds of the first. -/
theorem monotonic_lengthening (h₁ h₂ : Signals) (p₁ p₂ : Bool)
    (hfirst : h₁.reMultiStep = false)
    (hsecond : h₂ = { h₁ with reMultiStep := true }) :
    (route h₁ p₁).EstimatedSeconds ≤ (route h₂ p₂).EstimatedSeconds := by
  have h1 : h₁ = { h₁ with reMultiStep := false } := by
    rw [← hfirst]
  rw [route_EstimatedSeconds, route_EstimatedSeconds, hsecond]
  unfold estimate
  rw [(multiStep_frame h₁ true).1, (multiStep_frame h₁ true).2.1, (multiStep_frame h₁ true).2.2]
  unfold adjust
  dsimp only
  have hscope : scopeAdjust h₁ (dampened h₁).baseTime ≤
      scopeAdjust { h₁ with reMultiStep := true } (dampened h₁).baseTime := by
    rw [scopeAdjust_multiStep, ← h1]
    omega
  have hlen := lengthAdjust_mono h₁ (dominant h₁)
    ⟨scopeAdjust h₁ (dampened h₁).baseTime, (dampened h₁).complexity,
      (dampened h₁).complexityName⟩
    ⟨scopeAdjust { h₁ with reMultiStep := true } (dampened h₁).baseTime,
      (dampened h₁).complexity, (dampened h₁).complexityName⟩ hscope rfl rfl
  have hcombo := comboAdjust_mono (scores h₁) _ _ hlen.1 hlen.2.1 hlen.2.2
  exact commitAdjust_mono h₁ _ _ hcombo.1


/-- C9 applied to the texts `fix the login bug` and `fix bug puis bug`, which
differ in the multi-step signal only: 90 seconds against 120. -/
theorem monotonic_lengthening_witness :
    (signalsOf "fix the login bug" "fix the login bug").reMultiStep = false ∧
    (route (signalsOf "fix the login bug" "fix the login bug") false).EstimatedSeconds = 90 ∧
    (route (signalsOf "fix bug puis bug" "fix bug puis bug") false).EstimatedSeconds = 120 ∧
    (route (signalsOf "fix the login bug" "fix the login bug") false).EstimatedSeconds ≤
      (route (signalsOf "fix bug puis bug" "fix bug puis bug") false).EstimatedSeconds :=
  ⟨by rw [signalsOf_fixLoginBug]; decide, by rw [signalsOf_fixLoginBug]; decide,
   by rw [signalsOf_fixBugPuisBug]; decide,
   monotonic_lengthening (signalsOf "fix the login bug" "fix the login bug")
    (signalsOf "fix bug puis bug" "fix bug puis bug") false false
    (by rw [signalsOf_fixLoginBug]; decide)
    (by rw [signalsOf_fixBugPuisBug, signalsOf_fixLoginBug])⟩

/-- The category table gives a tier between 1 and 3. -/
theorem baseOf_complexity (dom : Category) :
    1 ≤ (baseOf dom).complexity ∧ (baseOf dom).complexity ≤ 3 := by
  cases dom <;> simp [baseOf]

/-- The first dampening rule keeps the tier between 1 and 3. -/
theorem dampenShort_complexity (h : Signals) (dom : Category) (b : Base)
    (hb : 1 ≤ b.complexity ∧ b.complexity ≤ 3) :
    1 ≤ (dampenShort h dom b).complexity ∧ (dampenShort h dom b).complexity ≤ 3 := by
  unfold dampenShort
  split_ifs <;> first | exact hb | simp

/-- The second dampening rule keeps the tier between 1 and 3. -/
theorem dampenOpener_complexity (h : Signals) (b : Base)
    (hb : 1 ≤ b.complexity ∧ b.complexity ≤ 3) :
    1 ≤ (dampenOpener h b).complexity ∧ (dampenOpener h b).complexity ≤ 3 := by
  unfold dampenOpener
  split_ifs <;> first | exact hb | simp

/-- After both dampening rules the tier is between 1 and 3. -/
theorem dampened_complexity (h : Signals) :
    1 ≤ (dampened h).complexity ∧ (dampened h).complexity ≤ 3 :=
  dampenOpener_complexity h _ (dampenShort_complexity h _ _ (baseOf_complexity _))

/-- The word-count adjustment never lowers a tier of at most 3 and never
raises it above 3. -/
theorem lengthAdjust_complexity (h : Signals) (dom : Category) (e : Estimate)
    (he : e.complexity ≤ 3) :
    e.complexity ≤ (lengthAdjust h dom e).complexity ∧
    (lengthAdjust h dom e).complexity ≤ 3 := by
  unfold lengthAdjust
  dsimp only
  split_ifs <;> first | omega | (dsimp only; omega)

/-- The combination bonuses never lower a tier of at most 3 and never raise it
above 3. -/
theorem comboAdjust_complexity (s : Scores) (e : Estimate) (he : e.complexity ≤ 3) :
    e.complexity ≤ (comboAdjust s e).complexity ∧ (comboAdjust s e).complexity ≤ 3 := by
  unfold comboAdjust
  dsimp only
  split_ifs <;> first | omega | (dsimp only; omega)

/-- The commit-ending bonus leaves the tier alone. -/
theorem commitAdjust_complexity (h : Signals) (e : Estimate) :
    (commitAdjust h e).complexity = e.complexity := by
  unfold commitAdjust
  split_ifs <;> rfl

/-- C10: the final complexity tier is at least the tier obtained right after
the two question-dampening rules; the length, comma, combination-bonus and
commit-ending adjustments never lower it. -/
theorem tier_never_lowered (h : Signals) (protection : Bool) :
    (dampened h).complexity ≤ (route h protection).ComplexityTier := by
  rw [route_ComplexityTier]
  unfold estimate adjust
  dsimp only
  rw [commitAdjust_complexity]
  have hlen := lengthAdjust_complexity h (dominant h)
    ⟨scopeAdjust h (dampened h).baseTime, (dampened h).complexity,
      (dampened h).complexityName⟩ (dampened_complexity h).2
  have hcombo := comboAdjust_complexity (scores h) _ hlen.2
  exact le_trans hlen.1 hcombo.1


/-! ## Scenarios and whole-pipeline properties -/

/-- C11, as stated, fails: on `fix the login bug, then commit and push` the
multi-step pattern does not match (it has `and then`, not `then`), so
estimatedSeconds is not 135 and the timeout is not 675. -/
theorem fix_then_commit_counterexample :
    ¬ ((signalsOf taskFixThenCommit taskFixThenCommit).reDebugFix = true ∧
       (signalsOf taskFixThenCommit taskFixThenCommit).reCommitEnd = true ∧
       (signalsOf taskFixThenCommit taskFixThenCommit).reMultiStep = true ∧
       (route (signalsOf taskFixThenCommit taskFixThenCommit) false).EstimatedSeconds =
         90 + 15 + 30 ∧
       (route (signalsOf taskFixThenCommit taskFixThenCommit) false).ComplexityTier = 3 ∧
       (route (signalsOf taskFixThenCommit taskFixThenCommit) false).Recommendation = .spawn ∧
       (route (signalsOf taskFixThenCommit taskFixThenCommit) false).ModelName = "Opus" ∧
       (route (signalsOf taskFixThenCommit taskFixThenCommit) false).TimeoutSeconds = 675) := by
  rw [signalsOf_fixThenCommit]
  decide

/-- C11, amended: on `fix the login bug, then commit and push` with protection
inactive the debug and commit-ending signals fire and the multi-step signal
does not, estimatedSeconds is 90 + 15 = 105, the tier is 3, the recommendation
is spawn, the model is the heavy one and the timeout is min(105 * 5, 1800) =
525. -/
theorem fix_then_commit_decision :
    (signalsOf taskFixThenCommit taskFixThenCommit).reDebugFix = true ∧
    (signalsOf taskFixThenCommit taskFixThenCommit).reDebugSignal = true ∧
    (signalsOf taskFixThenCommit taskFixThenCommit).reCommitEnd = true ∧
    (signalsOf taskFixThenCommit taskFixThenCommit).reMultiStep = false ∧
    (route (signalsOf taskFixThenCommit taskFixThenCommit) false).Category = .debug ∧
    (route (signalsOf taskFixThenCommit taskFixThenCommit) false).EstimatedSeconds = 90 + 15 ∧
    (route (signalsOf taskFixThenCommit taskFixThenCommit) false).ComplexityTier = 3 ∧
    (route (signalsOf taskFixThenCommit taskFixThenCommit) false).Recommendation = .spawn ∧
    (route (signalsOf taskFixThenCommit taskFixThenCommit) false).Model =
      "anthropic/claude-opus-4-6" ∧
    (route (signalsOf taskFixThenCommit taskFixThenCommit) false).ModelName = "Opus" ∧
    (route (signalsOf taskFixThenCommit taskFixThenCommit) false).TimeoutSeconds =
      Min.min (105 * 5) 1800 ∧
    (route (signalsOf taskFixThenCommit taskFixThenCommit) false).TimeoutSeconds = 525 := by
  rw [signalsOf_fixThenCommit]
  decide

/-- C13: on the design-the-architecture text with protection inactive the
architecture keyword, system and multi-component markers all fire, the
dominant category is architecture, the tier is 3, estimatedSeconds (160) is at
least 120 + 20, the recommendation is spawn and the model is the heavy one. -/
theorem design_decision :
    (signalsOf taskDesign taskDesign).reArchKeyword = true ∧
    (signalsOf taskDesign taskDesign).reArchSystem = true ∧
    (signalsOf taskDesign taskDesign).reArchMulti = true ∧
    (route (signalsOf taskDesign taskDesign) false).Category = .architecture ∧
    (route (signalsOf taskDesign taskDesign) false).ComplexityTier = 3 ∧
    (route (signalsOf taskDesign taskDesign) false).EstimatedSeconds ≥ 120 + 20 ∧
    (route (signalsOf taskDesign taskDesign) false).EstimatedSeconds = 160 ∧
    (route (signalsOf taskDesign taskDesign) false).Recommendation = .spawn ∧
    (route (signalsOf taskDesign taskDesign) false).Model = "anthropic/claude-opus-4-6" ∧
    (route (signalsOf taskDesign taskDesign) false).ModelName = "Opus" := by
  rw [signalsOf_design]
  decide

/-- The scope adjustment never lowers the running estimate. -/
theorem scopeAdjust_ge (h : Signals) (x : Int) : x ≤ scopeAdjust h x := by
  simp only [scopeAdjust]
  split_ifs <;> omega

/-- When the dominant category is conversation the dampened base is the table
entry of conversation. -/
theorem dampened_conversation (h : Signals) (hdom : dominant h = .conversation) :
    dampened h = { baseTime := 10, complexity := 1, complexityName := "simple" } := by
  unfold dampened
  rw [hdom]
  simp [dampenShort, dampenOpener, baseOf]

/-- C12: a task of at most 4 words whose dominant category is conversation and
which triggers neither combination bonus has tier 1 "simple", estimatedSeconds
10 (25 when the commit-ending pattern matches), recommendation execute_direct
and no model, whatever the protection flag. -/
theorem short_conversation (h : Signals) (protection : Bool)
    (hwc : h.wc ≤ 4) (hdom : dominant h = .conversation)
    (hcd : ¬ ((scores h).catCode ≥ 3 ∧ (scores h).catDebug ≥ 3))
    (hac : ¬ ((scores h).catArchitecture ≥ 3 ∧ (scores h).catCode ≥ 3)) :
    (route h protection).ComplexityTier = 1 ∧
    (route h protection).Complexity = "simple" ∧
    (h.reCommitEnd = false → (route h protection).EstimatedSeconds = 10) ∧
    (h.reCommitEnd = true → (route h protection).EstimatedSeconds = 25) ∧
    (route h protection).Recommendation = .execute_direct ∧
    (route h protection).Model = "" ∧
    (route h protection).ModelName = "" := by
  have hge := scopeAdjust_ge h 10
  have hest : estimate h =
      { estimated := if h.reCommitEnd = true then 25 else 10, complexity := 1,
        complexityName := "simple" } := by
    unfold estimate adjust
    rw [dampened_conversation h hdom, hdom]
    have hlen : lengthAdjust h .conversation
        { estimated := scopeAdjust h 10, complexity := 1, complexityName := "simple" } =
        { estimated := 10, complexity := 1, complexityName := "simple" } := by
      unfold lengthAdjust
      have h1 : ¬ h.wc > 30 := by omega
      have h2 : ¬ h.wc > 15 := by omega
      rw [if_neg h1, if_neg h2, if_pos ⟨hwc, rfl⟩]
      split_ifs with h3
      · rfl
      · dsimp only at h3
        have : scopeAdjust h 10 = 10 := by omega
        rw [this]
    dsimp only
    rw [hlen]
    unfold comboAdjust
    dsimp only
    rw [if_neg hcd, if_neg hac]
    unfold commitAdjust
    split_ifs <;> rfl
  have hrec : recommendation h = .execute_direct := by
    unfold recommendation
    rw [hest]
    dsimp only
    unfold decideRec
    split_ifs <;> first | rfl | omega
  have hsel : selection h = { model := "", modelName := "", cost := "low", timeout := 10 } := by
    unfold selection
    rw [hrec]
    simp [selectModel]
  have hroute : route h protection =
      { Recommendation := .execute_direct, Model := "", ModelName := "",
        Reasoning := reasoning h, TimeoutSeconds := 10,
        EstimatedSeconds := if h.reCommitEnd = true then 25 else 10,
        EstimatedCost := "low", Complexity := "simple", ComplexityTier := 1,
        Category := .conversation, ProtectionMode := protection,
        ProtectionOverride := false } := by
    unfold route
    dsimp only
    rw [hsel, hest, hrec, hdom]
    simp
  rw [hroute]
  refine ⟨rfl, rfl, ?_, ?_, rfl, rfl, rfl⟩
  · intro hc; simp [hc]
  · intro hc; simp [hc]

/-- C12 applied to the text `ok`: conversation, 10 seconds, simple,
execute_direct, no model. -/
theorem short_conversation_witness :
    dominant (signalsOf "ok" "ok") = .conversation ∧
    (route (signalsOf "ok" "ok") false).Category = .conversation ∧
    (route (signalsOf "ok" "ok") false).EstimatedSeconds = 10 ∧
    ((route (signalsOf "ok" "ok") false).ComplexityTier = 1 ∧
     (route (signalsOf "ok" "ok") false).Complexity = "simple" ∧
     ((signalsOf "ok" "ok").reCommitEnd = false →
       (route (signalsOf "ok" "ok") false).EstimatedSeconds = 10) ∧
     ((signalsOf "ok" "ok").reCommitEnd = true →
       (route (signalsOf "ok" "ok") false).EstimatedSeconds = 25) ∧
     (route (signalsOf "ok" "ok") false).Recommendation = .execute_direct ∧
     (route (signalsOf "ok" "ok") false).Model = "" ∧
     (route (signalsOf "ok" "ok") false).ModelName = "") :=
  ⟨by rw [signalsOf_ok]; decide, by rw [signalsOf_ok]; decide, by rw [signalsOf_ok]; decide,
   short_conversation (signalsOf "ok" "ok") false
    (by rw [signalsOf_ok]; decide) (by rw [signalsOf_ok]; decide)
    (by rw [signalsOf_ok]; decide) (by rw [signalsOf_ok]; decide)⟩

/-! ## Category scorer: order of the corrective rules and the code-creation rule -/

theorem specRuleA_eq (s : Scores) : specRuleA s = halveFilemod s := rfl

theorem specRuleB_eq (s : Scores) : specRuleB s = archBonus s := rfl

theorem specRuleC_eq (t : Bool) (s : Scores) : specRuleC t s = techObjectBoost t s := by
  unfold specRuleC techObjectBoost
  cases t <;> simp

/-- The technical-object boost commutes with the halving: they read and write
disjoint scores. -/
theorem techObjectBoost_halveFilemod (t : Bool) (s : Scores) :
    techObjectBoost t (halveFilemod s) = halveFilemod (techObjectBoost t s) := by
  obtain ⟨a0, a1, a2, a3, a4, a5, a6, a7, a8, a9⟩ := s
  unfold techObjectBoost halveFilemod
  cases t
  · simp
  · by_cases h1 : a5 ≥ 10 ∧ a4 > 0 ∧ a4 < a5 <;> by_cases h2 : a8 ≥ 2 ∨ a9 ≥ 2 <;>
      simp [h1, h2]

/-- The technical-object boost commutes with the architecture bonus. -/
theorem techObjectBoost_archBonus (t : Bool) (s : Scores) :
    techObjectBoost t (archBonus s) = archBonus (techObjectBoost t s) := by
  obtain ⟨a0, a1, a2, a3, a4, a5, a6, a7, a8, a9⟩ := s
  unfold techObjectBoost archBonus
  cases t
  · simp
  · by_cases h1 : a5 ≥ 6 ∧ a6 ≥ 5 <;> by_cases h2 : a8 ≥ 2 ∨ a9 ≥ 2 <;>
      simp [h1, h2]

/-- The two orders of the corrective rules agree on every scoreboard. -/
theorem specCorrective_eq (t : Bool) (s : Scores) :
    specCorrective t s = programCorrective t s := by
  unfold specCorrective programCorrective
  rw [specRuleC_eq, specRuleB_eq, specRuleA_eq, techObjectBoost_archBonus,
    techObjectBoost_halveFilemod]

/-- C14: on every scoreboard produced by the base pass and for every value of
the technical-object hit, the corrective rules applied in the order of the
specification (a, b, c) give the same ten scores as in the order of the
program (c, a, b); in particular the specification order yields the scoreboard
the program resolves the dominant category from. -/
theorem corrective_order (h : Signals) (t : Bool) :
    specCorrective t (baseScores h) = programCorrective t (baseScores h) ∧
    specCorrective h.reTechObject (baseScores h) = scores h :=
  ⟨specCorrective_eq t (baseScores h), specCorrective_eq h.reTechObject (baseScores h)⟩

/-- C15, as stated, fails: on `create a bot` the code category has a positive
score from the infra marker (5), yet the code-creation rule adds only 2 to code
and 2 to content, because it reads the code score before the infra, test and
refactor rules are evaluated. -/
theorem code_creation_counterexample :
    (signalsOf "create a bot" "create a bot").reCodeCreate = true ∧
    (baseScores { signalsOf "create a bot" "create a bot" with
      reCodeCreate := false }).catCode > 0 ∧
    ¬ ((baseScores (signalsOf "create a bot" "create a bot")).catCode =
          (baseScores { signalsOf "create a bot" "create a bot" with
            reCodeCreate := false }).catCode + 4 ∧
       (baseScores (signalsOf "create a bot" "create a bot")).catContent =
          (baseScores { signalsOf "create a bot" "create a bot" with
            reCodeCreate := false }).catContent) := by
  rw [signalsOf_createBot]
  decide

/-- C15, amended: when the code-creation pattern matches, it adds its full
weight 4 to code and nothing to content if the code-keyword pattern matched
(the only code rule scored before it); when the code-keyword pattern did not
match, whatever the infra, test and refactor markers do, it adds 2 to content
and 2 to code.  No other score is touched by the rule. -/
theorem code_creation_credit (h : Signals) (hc : h.reCodeCreate = true) :
    (h.reCodeKeyword = true →
      (baseScores h).catCode = (baseScores { h with reCodeCreate := false }).catCode + 4 ∧
      (baseScores h).catContent =
        (baseScores { h with reCodeCreate := false }).catContent) ∧
    (h.reCodeKeyword = false →
      (baseScores h).catCode = (baseScores { h with reCodeCreate := false }).catCode + 2 ∧
      (baseScores h).catContent =
        (baseScores { h with reCodeCreate := false }).catContent + 2) ∧
    (∀ c : Category, c ≠ .code → c ≠ .content →
      (baseScores h).get c = (baseScores { h with reCodeCreate := false }).get c) := by
  refine ⟨?_, ?_, ?_⟩
  · intro hk
    simp only [baseScores, hc, hk, if_true, Bool.false_eq_true, if_false]
    constructor <;> split_ifs <;> omega
  · intro hk
    simp only [baseScores, hc, hk, if_true, Bool.false_eq_true, if_false]
    constructor <;> split_ifs <;> omega
  · intro c h1 h2
    cases c <;> first | exact absurd rfl h1 | exact absurd rfl h2 | rfl

/-- C15, amended, applied to the text `create a bot`, where the code keyword
does not match: code gets 2 and content gets 2. -/
theorem code_creation_credit_witness :
    (signalsOf "create a bot" "create a bot").reCodeKeyword = false ∧
    ((signalsOf "create a bot" "create a bot").reCodeKeyword = true →
      (baseScores (signalsOf "create a bot" "create a bot")).catCode =
        (baseScores { signalsOf "create a bot" "create a bot" with
          reCodeCreate := false }).catCode + 4 ∧
      (baseScores (signalsOf "create a bot" "create a bot")).catContent =
        (baseScores { signalsOf "create a bot" "create a bot" with
          reCodeCreate := false }).catContent) ∧
    ((signalsOf "create a bot" "create a bot").reCodeKeyword = false →
      (baseScores (signalsOf "create a bot" "create a bot")).catCode =
        (baseScores { signalsOf "create a bot" "create a bot" with
          reCodeCreate := false }).catCode + 2 ∧
      (baseScores (signalsOf "create a bot" "create a bot")).catContent =
        (baseScores { signalsOf "create a bot" "create a bot" with
          reCodeCreate := false }).catContent + 2) ∧
    (∀ c : Category, c ≠ .code → c ≠ .content →
      (baseScores (signalsOf "create a bot" "create a bot")).get c =
        (baseScores { signalsOf "create a bot" "create a bot" with
          reCodeCreate := false }).get c) :=
  ⟨by rw [signalsOf_createBot]; decide,
   code_creation_credit (signalsOf "create a bot" "create a bot")
    (by rw [signalsOf_createBot]; decide)⟩

/-! ## Short questions, mixed intent, tiers and bounds -/

/-- With no scope signal, at most 15 words, a dominant category other than
conversation, no combination bonus and no commit ending, the estimate is the
dampened base. -/
theorem estimate_plain (h : Signals)
    (hms : h.reMultiStep = false) (hmb : h.reMultiBatch = false) (hcomma : h.commaCount < 2)
    (hwc : h.wc ≤ 15) (hdom : dominant h ≠ .conversation)
    (hcd : ¬ ((scores h).catCode ≥ 3 ∧ (scores h).catDebug ≥ 3))
    (hac : ¬ ((scores h).catArchitecture ≥ 3 ∧ (scores h).catCode ≥ 3))
    (hce : h.reCommitEnd = false) :
    estimate h =
      { estimated := (dampened h).baseTime, complexity := (dampened h).complexity,
        complexityName := (dampened h).complexityName } := by
  have hscope : scopeAdjust h (dampened h).baseTime = (dampened h).baseTime := by
    have hc : ¬ ((h.commaCount : Int) ≥ 2) := by omega
    simp [scopeAdjust, hms, hmb, hc]
  unfold estimate adjust
  dsimp only
  rw [hscope]
  have hlen : ∀ e : Estimate, lengthAdjust h (dominant h) e = e := by
    intro e
    unfold lengthAdjust
    have h1 : ¬ h.wc > 30 := by omega
    have h2 : ¬ h.wc > 15 := by omega
    have h3 : ¬ (h.wc ≤ 4 ∧ dominant h = .conversation) := fun hh => hdom hh.2
    rw [if_neg h1, if_neg h2, if_neg h3]
  rw [hlen]
  unfold comboAdjust
  dsimp only
  rw [if_neg hcd, if_neg hac]
  simp [commitAdjust, hce]

/-- The recommendation is execute_direct whenever the estimate is at most 30
seconds. -/
theorem route_direct_of_le (h : Signals) (protection : Bool)
    (he : (estimate h).estimated ≤ 30) :
    (route h protection).Recommendation = .execute_direct := by
  rw [route_Recommendation]
  unfold recommendation decideRec
  rw [if_pos he]

/-- C16: a question (ending in a question mark or matching the strict opener)
whose dominant category is debug, code or architecture, with no multi-step or
batch signal, fewer than two commas, no combination bonus and no commit
ending, gets tier 1 "simple", 15 seconds and execute_direct when it has at
most 5 words, and tier 2 "normal", 25 seconds and execute_direct when it has 6
to 8 words. -/
theorem short_heavy_question (h : Signals) (protection : Bool)
    (hq : h.reConvEndsQ = true ∨ h.reQuestionStart = true)
    (hdom : dominant h = .debug ∨ dominant h = .code ∨ dominant h = .architecture)
    (hms : h.reMultiStep = false) (hmb : h.reMultiBatch = false) (hcomma : h.commaCount < 2)
    (hcd : ¬ ((scores h).catCode ≥ 3 ∧ (scores h).catDebug ≥ 3))
    (hac : ¬ ((scores h).catArchitecture ≥ 3 ∧ (scores h).catCode ≥ 3))
    (hce : h.reCommitEnd = false) :
    (h.wc ≤ 5 →
      (route h protection).ComplexityTier = 1 ∧ (route h protection).Complexity = "simple" ∧
      (route h protection).EstimatedSeconds = 15 ∧
      (route h protection).Recommendation = .execute_direct) ∧
    (6 ≤ h.wc → h.wc ≤ 8 →
      (route h protection).ComplexityTier = 2 ∧ (route h protection).Complexity = "normal" ∧
      (route h protection).EstimatedSeconds = 25 ∧
      (route h protection).Recommendation = .execute_direct) := by
  have hisq : isQuestion h = true := by
    simp only [isQuestion, Bool.or_eq_true]
    exact hq
  have hne : dominant h ≠ .conversation := by
    rcases hdom with hd | hd | hd <;> rw [hd] <;> decide
  constructor
  · intro hwc
    have hd : dampened h = { baseTime := 15, complexity := 1, complexityName := "simple" } := by
      unfold dampened dampenShort
      rw [if_pos ⟨hisq, by omega⟩, if_pos hdom, if_pos hwc]
      simp [dampenOpener]
    have he := estimate_plain h hms hmb hcomma (by omega) hne hcd hac hce
    rw [hd] at he
    refine ⟨?_, ?_, ?_, ?_⟩
    · rw [route_ComplexityTier, he]
    · rw [route_Complexity, he]
    · rw [route_EstimatedSeconds, he]
    · exact route_direct_of_le h protection (by rw [he]; decide)
  · intro hwc6 hwc8
    have hd : dampened h = { baseTime := 25, complexity := 2, complexityName := "normal" } := by
      unfold dampened dampenShort
      rw [if_pos ⟨hisq, hwc8⟩, if_pos hdom, if_neg (by omega)]
      simp [dampenOpener]
    have he := estimate_plain h hms hmb hcomma (by omega) hne hcd hac hce
    rw [hd] at he
    refine ⟨?_, ?_, ?_, ?_⟩
    · rw [route_ComplexityTier, he]
    · rw [route_Complexity, he]
    · rw [route_EstimatedSeconds, he]
    · exact route_direct_of_le h protection (by rw [he]; decide)

/-- C16 applied to the texts `fix bug?` (two words) and
`can you fix the bug here?` (six words), both with dominant category debug. -/
theorem short_heavy_question_witness :
    (dominant (signalsOf "fix bug?" "fix bug?") = .debug ∧
     (signalsOf "fix bug?" "fix bug?").wc = 2 ∧
     dominant (signalsOf "can you fix the bug here?" "can you fix the bug here?") = .debug ∧
     (signalsOf "can you fix the bug here?" "can you fix the bug here?").wc = 6) ∧
    (((signalsOf "fix bug?" "fix bug?").wc ≤ 5 →
      (route (signalsOf "fix bug?" "fix bug?") false).ComplexityTier = 1 ∧
      (route (signalsOf "fix bug?" "fix bug?") false).Complexity = "simple" ∧
      (route (signalsOf "fix bug?" "fix bug?") false).EstimatedSeconds = 15 ∧
      (route (signalsOf "fix bug?" "fix bug?") false).Recommendation = .execute_direct) ∧
     (6 ≤ (signalsOf "fix bug?" "fix bug?").wc → (signalsOf "fix bug?" "fix bug?").wc ≤ 8 →
      (route (signalsOf "fix bug?" "fix bug?") false).ComplexityTier = 2 ∧
      (route (signalsOf "fix bug?" "fix bug?") false).Complexity = "normal" ∧
      (route (signalsOf "fix bug?" "fix bug?") false).EstimatedSeconds = 25 ∧
      (route (signalsOf "fix bug?" "fix bug?") false).Recommendation = .execute_direct)) ∧
    ((route (signalsOf "can you fix the bug here?" "can you fix the bug here?") false).ComplexityTier = 2 ∧
     (route (signalsOf "can you fix the bug here?" "can you fix the bug here?") false).Complexity = "normal" ∧
     (route (signalsOf "can you fix the bug here?" "can you fix the bug here?") false).EstimatedSeconds = 25 ∧
     (route (signalsOf "can you fix the bug here?" "can you fix the bug here?") false).Recommendation =
       .execute_direct) :=
  ⟨by rw [signalsOf_fixBugQ, signalsOf_canYouFix]; decide,
   short_heavy_question (signalsOf "fix bug?" "fix bug?") false
    (by rw [signalsOf_fixBugQ]; decide) (by rw [signalsOf_fixBugQ]; decide)
    (by rw [signalsOf_fixBugQ]; decide) (by rw [signalsOf_fixBugQ]; decide)
    (by rw [signalsOf_fixBugQ]; decide) (by rw [signalsOf_fixBugQ]; decide)
    (by rw [signalsOf_fixBugQ]; decide) (by rw [signalsOf_fixBugQ]; decide),
   (short_heavy_question (signalsOf "can you fix the bug here?" "can you fix the bug here?") false
    (by rw [signalsOf_canYouFix]; decide) (by rw [signalsOf_canYouFix]; decide)
    (by rw [signalsOf_canYouFix]; decide) (by rw [signalsOf_canYouFix]; decide)
    (by rw [signalsOf_canYouFix]; decide) (by rw [signalsOf_canYouFix]; decide)
    (by rw [signalsOf_canYouFix]; decide) (by rw [signalsOf_canYouFix]; decide)).2
    (by rw [signalsOf_canYouFix]; decide) (by rw [signalsOf_canYouFix]; decide)⟩

/-- The dampened base time is at least 10 seconds. -/
theorem dampened_baseTime (h : Signals) : 10 ≤ (dampened h).baseTime := by
  unfold dampened dampenOpener dampenShort
  split_ifs <;> cases dominant h <;> simp_all [baseOf]

/-- The word-count adjustment keeps an estimate of at least 10 seconds at
least 10 seconds. -/
theorem lengthAdjust_estimated (h : Signals) (dom : Category) (e : Estimate)
    (he : 10 ≤ e.estimated) : 10 ≤ (lengthAdjust h dom e).estimated := by
  unfold lengthAdjust
  dsimp only
  split_ifs <;> first | omega | (dsimp only; omega)

/-- The combination bonuses never lower the estimate. -/
theorem comboAdjust_estimated (s : Scores) (e : Estimate) :
    e.estimated ≤ (comboAdjust s e).estimated := by
  unfold comboAdjust
  dsimp only
  split_ifs <;> first | omega | (dsimp only; omega)

/-- The commit-ending bonus never lowers the estimate. -/
theorem commitAdjust_estimated (h : Signals) (e : Estimate) :
    e.estimated ≤ (commitAdjust h e).estimated := by
  unfold commitAdjust
  split_ifs <;> first | omega | (dsimp only; omega)

/-- The estimate before the combination bonuses is at least 10 seconds. -/
theorem lengthAdjusted_ge (h : Signals) :
    10 ≤ (lengthAdjust h (dominant h)
      { estimated := scopeAdjust h (dampened h).baseTime,
        complexity := (dampened h).complexity,
        complexityName := (dampened h).complexityName }).estimated :=
  lengthAdjust_estimated h _ _ (le_trans (dampened_baseTime h) (scopeAdjust_ge h _))

/-- The first combination bonus adds 30 seconds and forces tier 3. -/
theorem comboAdjust_mixed (s : Scores) (e : Estimate)
    (hcd : s.catCode ≥ 3 ∧ s.catDebug ≥ 3) :
    (comboAdjust s e).complexity = 3 ∧ (comboAdjust s e).complexityName = "complex" ∧
    e.estimated + 30 ≤ (comboAdjust s e).estimated := by
  unfold comboAdjust
  dsimp only
  rw [if_pos hcd]
  split_ifs <;> refine ⟨rfl, rfl, ?_⟩ <;> dsimp only <;> omega

/-- The commit-ending bonus leaves the tier name alone. -/
theorem commitAdjust_complexityName (h : Signals) (e : Estimate) :
    (commitAdjust h e).complexityName = e.complexityName := by
  unfold commitAdjust
  split_ifs <;> rfl

/-- C17: whenever the final code score and the final debug score are both at
least 3, the final tier is 3 "complex", estimatedSeconds is at least 40 and the
recommendation is spawn. -/
theorem mixed_code_debug (h : Signals) (protection : Bool)
    (hcode : (scores h).catCode ≥ 3) (hdebug : (scores h).catDebug ≥ 3) :
    (route h protection).ComplexityTier = 3 ∧
    (route h protection).Complexity = "complex" ∧
    (route h protection).EstimatedSeconds ≥ 40 ∧
    (route h protection).Recommendation = .spawn := by
  have hlen := lengthAdjusted_ge h
  have hcombo := comboAdjust_mixed (scores h) (lengthAdjust h (dominant h)
      { estimated := scopeAdjust h (dampened h).baseTime,
        complexity := (dampened h).complexity,
        complexityName := (dampened h).complexityName }) ⟨hcode, hdebug⟩
  have hcommit := commitAdjust_estimated h (comboAdjust (scores h) (lengthAdjust h (dominant h)
      { estimated := scopeAdjust h (dampened h).baseTime,
        complexity := (dampened h).complexity,
        complexityName := (dampened h).complexityName }))
  have htier : (estimate h).complexity = 3 := by
    unfold estimate adjust
    dsimp only
    rw [commitAdjust_complexity]
    exact hcombo.1
  have hname : (estimate h).complexityName = "complex" := by
    unfold estimate adjust
    dsimp only
    rw [commitAdjust_complexityName]
    exact hcombo.2.1
  have hest : 40 ≤ (estimate h).estimated := by
    unfold estimate adjust
    dsimp only
    omega
  refine ⟨?_, ?_, ?_, ?_⟩
  · rw [route_ComplexityTier, htier]
  · rw [route_Complexity, hname]
  · rw [route_EstimatedSeconds]
    exact hest
  · rw [route_Recommendation]
    unfold recommendation decideRec
    rw [htier]
    split_ifs <;> first | rfl | omega

/-- C17 applied to the text `fix the api bug`: code 6, debug 13, tier 3, 160
seconds, spawn. -/
theorem mixed_code_debug_witness :
    ((scores (signalsOf "fix the api bug" "fix the api bug")).catCode = 6 ∧
     (scores (signalsOf "fix the api bug" "fix the api bug")).catDebug = 13 ∧
     (route (signalsOf "fix the api bug" "fix the api bug") false).EstimatedSeconds = 160) ∧
    ((route (signalsOf "fix the api bug" "fix the api bug") false).ComplexityTier = 3 ∧
     (route (signalsOf "fix the api bug" "fix the api bug") false).Complexity = "complex" ∧
     (route (signalsOf "fix the api bug" "fix the api bug") false).EstimatedSeconds ≥ 40 ∧
     (route (signalsOf "fix the api bug" "fix the api bug") false).Recommendation = .spawn) :=
  ⟨by rw [signalsOf_fixApiBug]; decide,
   mixed_code_debug (signalsOf "fix the api bug" "fix the api bug") false
    (by rw [signalsOf_fixApiBug]; decide) (by rw [signalsOf_fixApiBug]; decide)⟩

/-- A pair from the tier table agrees in both directions. -/
theorem TierNamed.agrees (c : Int) (n : String) (hn : TierNamed c n) : TierAgrees c n := by
  rcases hn with ⟨hc, hs⟩ | ⟨hc, hs⟩ | ⟨hc, hs⟩ <;> subst hc <;> subst hs <;>
    refine ⟨by decide, ?_, ?_, ?_⟩ <;> constructor <;> intro hx <;>
    first | rfl | exact absurd hx (by decide)

theorem baseOf_tierNamed (dom : Category) :
    TierNamed (baseOf dom).complexity (baseOf dom).complexityName := by
  cases dom <;> simp [baseOf, TierNamed]

theorem dampenShort_tierNamed (h : Signals) (dom : Category) (b : Base)
    (hb : TierNamed b.complexity b.complexityName) :
    TierNamed (dampenShort h dom b).complexity (dampenShort h dom b).complexityName := by
  unfold dampenShort
  split_ifs <;> first | exact hb | simp [TierNamed]

theorem dampenOpener_tierNamed (h : Signals) (b : Base)
    (hb : TierNamed b.complexity b.complexityName) :
    TierNamed (dampenOpener h b).complexity (dampenOpener h b).complexityName := by
  unfold dampenOpener
  split_ifs <;> first | exact hb | simp [TierNamed]

theorem lengthAdjust_tierNamed (h : Signals) (dom : Category) (e : Estimate)
    (he : TierNamed e.complexity e.complexityName) :
    TierNamed (lengthAdjust h dom e).complexity (lengthAdjust h dom e).complexityName := by
  unfold lengthAdjust
  dsimp only
  split_ifs <;> first | exact he | simp [TierNamed]

theorem comboAdjust_tierNamed (s : Scores) (e : Estimate)
    (he : TierNamed e.complexity e.complexityName) :
    TierNamed (comboAdjust s e).complexity (comboAdjust s e).complexityName := by
  unfold comboAdjust
  dsimp only
  split_ifs <;> first | exact he | simp [TierNamed]

theorem commitAdjust_tierNamed (h : Signals) (e : Estimate)
    (he : TierNamed e.complexity e.complexityName) :
    TierNamed (commitAdjust h e).complexity (commitAdjust h e).complexityName := by
  rw [commitAdjust_complexity, commitAdjust_complexityName]
  exact he

/-- The combination bonuses are the code-plus-debug bonus followed by the
architecture-plus-code bonus. -/
theorem comboAdjust_eq (s : Scores) (e : Estimate) :
    comboAdjust s e = archCodeBonus s (mixedBonus s e) := rfl

theorem mixedBonus_tierNamed (s : Scores) (e : Estimate)
    (he : TierNamed e.complexity e.complexityName) :
    TierNamed (mixedBonus s e).complexity (mixedBonus s e).complexityName := by
  unfold mixedBonus
  split_ifs <;> first | exact he | simp [TierNamed]

/-- C19: the tier is one of 1, 2, 3 and the name agrees with it (1 with
simple, 2 with normal, 3 with complex, in both directions) after the base
lookup, after each of the two question-dampening rules, after the word-count
adjustment, after each of the two combination bonuses, and in the final
output; the scope and commit-ending adjustments do not touch the tier. -/
theorem tier_name_agreement (h : Signals) (protection : Bool) :
    TierAgrees (baseOf (dominant h)).complexity (baseOf (dominant h)).complexityName ∧
    TierAgrees (dampenShort h (dominant h) (baseOf (dominant h))).complexity
      (dampenShort h (dominant h) (baseOf (dominant h))).complexityName ∧
    TierAgrees (dampened h).complexity (dampened h).complexityName ∧
    TierAgrees
      (lengthAdjust h (dominant h)
        { estimated := scopeAdjust h (dampened h).baseTime,
          complexity := (dampened h).complexity,
          complexityName := (dampened h).complexityName }).complexity
      (lengthAdjust h (dominant h)
        { estimated := scopeAdjust h (dampened h).baseTime,
          complexity := (dampened h).complexity,
          complexityName := (dampened h).complexityName }).complexityName ∧
    TierAgrees
      (mixedBonus (scores h) (lengthAdjust h (dominant h)
        { estimated := scopeAdjust h (dampened h).baseTime,
          complexity := (dampened h).complexity,
          complexityName := (dampened h).complexityName })).complexity
      (mixedBonus (scores h) (lengthAdjust h (dominant h)
        { estimated := scopeAdjust h (dampened h).baseTime,
          complexity := (dampened h).complexity,
          complexityName := (dampened h).complexityName })).complexityName ∧
    TierAgrees
      (comboAdjust (scores h) (lengthAdjust h (dominant h)
        { estimated := scopeAdjust h (dampened h).baseTime,
          complexity := (dampened h).complexity,
          complexityName := (dampened h).complexityName })).complexity
      (comboAdjust (scores h) (lengthAdjust h (dominant h)
        { estimated := scopeAdjust h (dampened h).baseTime,
          complexity := (dampened h).complexity,
          complexityName := (dampened h).complexityName })).complexityName ∧
    ((route h protection).ComplexityTier = 1 ∨ (route h protection).ComplexityTier = 2 ∨
      (route h protection).ComplexityTier = 3) ∧
    ((route h protection).ComplexityTier = 1 ↔ (route h protection).Complexity = "simple") ∧
    ((route h protection).ComplexityTier = 2 ↔ (route h protection).Complexity = "normal") ∧
    ((route h protection).ComplexityTier = 3 ↔ (route h protection).Complexity = "complex") := by
  have h0 := baseOf_tierNamed (dominant h)
  have h1 := dampenShort_tierNamed h (dominant h) _ h0
  have h2 : TierNamed (dampened h).complexity (dampened h).complexityName :=
    dampenOpener_tierNamed h _ h1
  have h3 := lengthAdjust_tierNamed h (dominant h)
    { estimated := scopeAdjust h (dampened h).baseTime,
      complexity := (dampened h).complexity,
      complexityName := (dampened h).complexityName } h2
  have h3a := mixedBonus_tierNamed (scores h) _ h3
  have h4 := comboAdjust_tierNamed (scores h) _ h3
  have h5 : TierNamed (estimate h).complexity (estimate h).complexityName :=
    commitAdjust_tierNamed h _ h4
  rw [route_ComplexityTier, route_Complexity]
  exact ⟨h0.agrees, h1.agrees, h2.agrees, h3.agrees, h3a.agrees, h4.agrees, h5.agrees⟩

/-- The final estimate is at least 10 seconds. -/
theorem estimate_ge (h : Signals) : 10 ≤ (estimate h).estimated := by
  have hlen := lengthAdjusted_ge h
  have hcombo := comboAdjust_estimated (scores h) (lengthAdjust h (dominant h)
      { estimated := scopeAdjust h (dampened h).baseTime,
        complexity := (dampened h).complexity,
        complexityName := (dampened h).complexityName })
  have hcommit := commitAdjust_estimated h (comboAdjust (scores h) (lengthAdjust h (dominant h)
      { estimated := scopeAdjust h (dampened h).baseTime,
        complexity := (dampened h).complexity,
        complexityName := (dampened h).complexityName }))
  unfold estimate adjust
  dsimp only
  omega

/-- A spawn recommendation needs an estimate above 30 seconds. -/
theorem decideRec_spawn (e c : Int) (hs : decideRec e c = .spawn) : 30 < e := by
  unfold decideRec at hs
  split_ifs at hs <;> omega

/-- C20: estimatedSeconds is at least 10; the timeout lies between 10 and 1800;
it is 10 exactly when the recommendation is execute_direct, and every spawn
decision has a timeout above 90, whatever the protection flag. -/
theorem estimate_timeout_bounds (h : Signals) (protection : Bool) :
    10 ≤ (route h protection).EstimatedSeconds ∧
    10 ≤ (route h protection).TimeoutSeconds ∧
    (route h protection).TimeoutSeconds ≤ 1800 ∧
    ((route h protection).TimeoutSeconds = 10 ↔
      (route h protection).Recommendation = .execute_direct) ∧
    ((route h protection).Recommendation = .spawn →
      90 < (route h protection).TimeoutSeconds) := by
  rw [route_EstimatedSeconds, route_TimeoutSeconds, route_Recommendation]
  have hest := estimate_ge h
  rcases selectModel_cases (recommendation h) (estimate h).estimated (estimate h).complexity
    with ⟨hr, he⟩ | ⟨hr, _, he⟩ | ⟨hr, _, he⟩
  · rw [selection, he, hr]
    simp
    exact hest
  · have h30 := decideRec_spawn _ _ hr
    rw [selection, he, hr]
    dsimp only
    refine ⟨hest, ?_, ?_, ?_, ?_⟩
    · omega
    · omega
    · constructor
      · intro hx; omega
      · intro hx; cases hx
    · intro _; omega
  · have h30 := decideRec_spawn _ _ hr
    rw [selection, he, hr]
    dsimp only
    refine ⟨hest, ?_, ?_, ?_, ?_⟩
    · omega
    · omega
    · constructor
      · intro hx; omega
      · intro hx; cases hx
    · intro _; omega

/-! ## The two question-opener patterns -/

/-- The parsed form of `reQuestionStart`. -/
theorem reQuestionStart_eq :
    reQuestionStart = .seq .bol (.seq (.star whitespace) (Regex.alts
      [Regex.lit "c.est quoi".data, Regex.lit "qu.est-ce que".data, Regex.lit "what is".data,
       Regex.lit "what.s".data, Regex.lit "why does".data, Regex.lit "why is".data,
       Regex.lit "pourquoi".data, Regex.lit "how does".data, Regex.lit "how is".data,
       Regex.lit "comment ça".data, Regex.lit "explique".data, Regex.lit "explain".data,
       Regex.lit "describe".data, Regex.lit "décris".data])) := by
  decide!

/-- The parsed form of `reQuestionEarly`. -/
theorem reQuestionEarly_eq :
    reQuestionEarly = .seq .bol (.seq (.star whitespace) (Regex.alts
      [Regex.lit "c.est quoi".data, Regex.lit "qu.est-ce que".data, Regex.lit "what is".data,
       Regex.lit "what.s".data, Regex.lit "why does".data, Regex.lit "pourquoi".data,
       Regex.lit "how ".data, Regex.lit "comment ".data, Regex.lit "explique".data,
       Regex.lit "explain".data, Regex.lit "describe".data, Regex.lit "décris".data])) := by
  decide!

/-- The parsed form of `reWhyIs`. -/
theorem reWhyIs_eq :
    reWhyIs = .seq .bol (.seq (.star whitespace) (Regex.lit "why is".data)) := by
  decide!
/-- Repetition is monotone in the continuation. -/
theorem starLoop_mono
    (step : Option Char → List Char → (Option Char → List Char → Bool) → Bool)
    (hstep : ∀ p r (k k' : Option Char → List Char → Bool),
      (∀ a b, k a b = true → k' a b = true) → step p r k = true → step p r k' = true)
    (n : Nat) (p : Option Char) (r : List Char) (k k' : Option Char → List Char → Bool)
    (hk : ∀ a b, k a b = true → k' a b = true) (h : starLoop step n p r k = true) :
    starLoop step n p r k' = true := by
  induction n generalizing p r with
  | zero => exact hk _ _ h
  | succ n ih =>
    simp only [starLoop, Bool.or_eq_true] at h ⊢
    rcases h with h | h
    · exact Or.inl (hk _ _ h)
    · refine Or.inr (hstep p r _ _ ?_ h)
      intro a b hab
      simp only [Bool.and_eq_true] at hab ⊢
      exact ⟨hab.1, ih a b hab.2⟩

/-- Matching is monotone in the continuation. -/
theorem Regex.run_mono (re : Regex) (p : Option Char) (r : List Char)
    (k k' : Option Char → List Char → Bool)
    (hk : ∀ a b, k a b = true → k' a b = true) (h : re.run p r k = true) :
    re.run p r k' = true := by
  induction re generalizing p r k k' with
  | fail => simp [Regex.run] at h
  | empty => exact hk _ _ h
  | char c =>
    cases r with
    | nil => simp [Regex.run] at h
    | cons d ds =>
      simp only [Regex.run, Bool.and_eq_true] at h ⊢
      exact ⟨h.1, hk _ _ h.2⟩
  | any =>
    cases r with
    | nil => simp [Regex.run] at h
    | cons d ds =>
      simp only [Regex.run, Bool.and_eq_true] at h ⊢
      exact ⟨h.1, hk _ _ h.2⟩
  | cls ranges =>
    cases r with
    | nil => simp [Regex.run] at h
    | cons d ds =>
      simp only [Regex.run, Bool.and_eq_true] at h ⊢
      exact ⟨h.1, hk _ _ h.2⟩
  | seq a b iha ihb =>
    simp only [Regex.run] at h ⊢
    exact iha p r _ _ (fun x y hxy => ihb x y k k' hk hxy) h
  | alt a b iha ihb =>
    simp only [Regex.run, Bool.or_eq_true] at h ⊢
    exact h.imp (iha p r k k' hk) (ihb p r k k' hk)
  | opt a iha =>
    simp only [Regex.run, Bool.or_eq_true] at h ⊢
    exact h.imp (iha p r k k' hk) (hk _ _)
  | star a iha =>
    simp only [Regex.run] at h ⊢
    exact starLoop_mono a.run (fun p r k k' hk h => iha p r k k' hk h) _ p r k k' hk h
  | plus a iha =>
    simp only [Regex.run] at h ⊢
    exact iha p r _ _
      (fun x y hxy => starLoop_mono a.run (fun p r k k' hk h => iha p r k k' hk h) _ x y k k' hk hxy)
      h
  | bol =>
    simp only [Regex.run, Bool.and_eq_true] at h ⊢
    exact ⟨h.1, hk _ _ h.2⟩
  | eol =>
    simp only [Regex.run, Bool.and_eq_true] at h ⊢
    exact ⟨h.1, hk _ _ h.2⟩
  | wordBoundary =>
    simp only [Regex.run, Bool.and_eq_true] at h ⊢
    exact ⟨h.1, hk _ _ h.2⟩

/-- Zero or more repetitions followed by one of two continuations. -/
theorem starLoop_split
    (step : Option Char → List Char → (Option Char → List Char → Bool) → Bool)
    (hstep : ∀ p r (k k₁ k₂ : Option Char → List Char → Bool),
      (∀ a b, k a b = true → k₁ a b = true ∨ k₂ a b = true) →
      step p r k = true → step p r k₁ = true ∨ step p r k₂ = true)
    (n : Nat) (p : Option Char) (r : List Char) (k k₁ k₂ : Option Char → List Char → Bool)
    (hk : ∀ a b, k a b = true → k₁ a b = true ∨ k₂ a b = true)
    (h : starLoop step n p r k = true) :
    starLoop step n p r k₁ = true ∨ starLoop step n p r k₂ = true := by
  induction n generalizing p r with
  | zero => exact hk _ _ h
  | succ n ih =>
    simp only [starLoop, Bool.or_eq_true] at h ⊢
    rcases h with h | h
    · exact (hk _ _ h).imp Or.inl Or.inl
    · refine (hstep p r _ _ _ ?_ h).imp Or.inr Or.inr
      intro a b hab
      simp only [Bool.and_eq_true] at hab ⊢
      exact (ih a b hab.2).imp (fun hx => ⟨hab.1, hx⟩) (fun hx => ⟨hab.1, hx⟩)

/-- One whitespace character followed by one of two continuations. -/
theorem whitespace_split (p : Option Char) (r : List Char)
    (k k₁ k₂ : Option Char → List Char → Bool)
    (hk : ∀ a b, k a b = true → k₁ a b = true ∨ k₂ a b = true)
    (h : whitespace.run p r k = true) :
    whitespace.run p r k₁ = true ∨ whitespace.run p r k₂ = true := by
  cases r with
  | nil => simp [whitespace, Regex.run] at h
  | cons d ds =>
    simp only [whitespace, Regex.run, Bool.and_eq_true] at h ⊢
    exact (hk _ _ h.2).imp (fun hx => ⟨h.1, hx⟩) (fun hx => ⟨h.1, hx⟩)

/-- A pattern anchored at the start never matches from a later position. -/
theorem searchFrom_bol_some (y : Regex) (c : Char) (cs : List Char) :
    (Regex.seq .bol y).searchFrom (some c) cs = false := by
  induction cs generalizing c with
  | nil => simp [Regex.searchFrom, Regex.run]
  | cons d ds ih => simp [Regex.searchFrom, Regex.run, ih]

/-- A pattern anchored at the start matches exactly when its body matches at
the start of the text. -/
theorem searchFrom_bol (y : Regex) (cs : List Char) :
    (Regex.seq .bol y).searchFrom none cs = y.run none cs (fun _ _ => true) := by
  cases cs with
  | nil => simp [Regex.searchFrom, Regex.run]
  | cons d ds => simp [Regex.searchFrom, Regex.run, searchFrom_bol_some]

/-- If every match of `x` is a match of `y₁` or of `y₂`, a text matched by
`^\s*x` is matched by `^\s*y₁` or by `^\s*y₂`. -/
theorem opener_split (x y₁ y₂ : Regex)
    (hx : ∀ p r, x.run p r (fun _ _ => true) = true →
      y₁.run p r (fun _ _ => true) = true ∨ y₂.run p r (fun _ _ => true) = true)
    (s : String)
    (h : matchString (.seq .bol (.seq (.star whitespace) x)) s = true) :
    matchString (.seq .bol (.seq (.star whitespace) y₁)) s = true ∨
    matchString (.seq .bol (.seq (.star whitespace) y₂)) s = true := by
  simp only [matchString, searchFrom_bol, Regex.run] at h ⊢
  exact starLoop_split whitespace.run whitespace_split _ _ _ _ _ _ hx h

/-- An alternation matches when one of its members does. -/
theorem Regex.alts_run (l : List Regex) (p : Option Char) (r : List Char)
    (k : Option Char → List Char → Bool) :
    (Regex.alts l).run p r k = l.any (fun a => a.run p r k) := by
  induction l with
  | nil => simp [Regex.alts, Regex.run]
  | cons a as ih =>
    cases as with
    | nil => simp [Regex.alts]
    | cons b bs =>
      have hstep : (Regex.alts (a :: b :: bs)).run p r k =
          (a.run p r k || (Regex.alts (b :: bs)).run p r k) := rfl
      rw [hstep, ih]
      simp only [List.any_cons]

/-- A sequence that matches has a matching first part. -/
theorem Regex.seqs_prefix (u v : List Regex) (hu : u ≠ []) (p : Option Char) (r : List Char)
    (k : Option Char → List Char → Bool) (h : (Regex.seqs (u ++ v)).run p r k = true) :
    (Regex.seqs u).run p r (fun _ _ => true) = true := by
  induction u generalizing p r with
  | nil => exact absurd rfl hu
  | cons a as ih =>
    cases as with
    | nil =>
      cases v with
      | nil => exact Regex.run_mono _ p r k _ (fun _ _ _ => rfl) h
      | cons b bs =>
        simp only [List.cons_append, List.nil_append, Regex.seqs, Regex.run] at h ⊢
        exact Regex.run_mono _ p r _ _ (fun _ _ _ => rfl) h
    | cons b bs =>
      simp only [List.cons_append, Regex.seqs, Regex.run] at h ⊢
      exact Regex.run_mono _ p r _ _ (fun x y hxy => ih (by simp) x y hxy) h

/-- A literal that matches has a matching first part. -/
theorem Regex.lit_prefix (u v : List Char) (hu : u ≠ []) (p : Option Char) (r : List Char)
    (k : Option Char → List Char → Bool) (h : (Regex.lit (u ++ v)).run p r k = true) :
    (Regex.lit u).run p r (fun _ _ => true) = true := by
  unfold Regex.lit at h ⊢
  rw [List.map_append] at h
  exact Regex.seqs_prefix _ _ (by simpa using hu) p r k h

/-- Every opener of `reQuestionStart` is an opener of `reQuestionEarly`, has
one as a first part, or is `why is`. -/
theorem start_openers (p : Option Char) (r : List Char)
    (h : (Regex.alts
      [Regex.lit "c.est quoi".data, Regex.lit "qu.est-ce que".data, Regex.lit "what is".data,
       Regex.lit "what.s".data, Regex.lit "why does".data, Regex.lit "why is".data,
       Regex.lit "pourquoi".data, Regex.lit "how does".data, Regex.lit "how is".data,
       Regex.lit "comment ça".data, Regex.lit "explique".data, Regex.lit "explain".data,
       Regex.lit "describe".data, Regex.lit "décris".data]).run p r (fun _ _ => true) = true) :
    (Regex.alts
      [Regex.lit "c.est quoi".data, Regex.lit "qu.est-ce que".data, Regex.lit "what is".data,
       Regex.lit "what.s".data, Regex.lit "why does".data, Regex.lit "pourquoi".data,
       Regex.lit "how ".data, Regex.lit "comment ".data, Regex.lit "explique".data,
       Regex.lit "explain".data, Regex.lit "describe".data,
       Regex.lit "décris".data]).run p r (fun _ _ => true) = true ∨
    (Regex.lit "why is".data).run p r (fun _ _ => true) = true := by
  rw [Regex.alts_run] at h ⊢
  simp only [List.any_cons, List.any_nil, Bool.or_false, Bool.or_eq_true] at h ⊢
  have hhow : ∀ v : List Char, (Regex.lit ("how ".data ++ v)).run p r (fun _ _ => true) = true →
      (Regex.lit "how ".data).run p r (fun _ _ => true) = true :=
    fun v hv => Regex.lit_prefix _ v (by decide) p r _ hv
  have hcomment : ∀ v : List Char,
      (Regex.lit ("comment ".data ++ v)).run p r (fun _ _ => true) = true →
      (Regex.lit "comment ".data).run p r (fun _ _ => true) = true :=
    fun v hv => Regex.lit_prefix _ v (by decide) p r _ hv
  rcases h with h | h | h | h | h | h | h | h | h | h | h | h | h | h
  · exact Or.inl (Or.inl h)
  · exact Or.inl (Or.inr (Or.inl h))
  · exact Or.inl (Or.inr (Or.inr (Or.inl h)))
  · exact Or.inl (Or.inr (Or.inr (Or.inr (Or.inl h))))
  · exact Or.inl (Or.inr (Or.inr (Or.inr (Or.inr (Or.inl h)))))
  · exact Or.inr h
  · exact Or.inl (Or.inr (Or.inr (Or.inr (Or.inr (Or.inr (Or.inl h))))))
  · exact Or.inl (Or.inr (Or.inr (Or.inr (Or.inr (Or.inr (Or.inr (Or.inl
      (hhow "does".data h))))))))
  · exact Or.inl (Or.inr (Or.inr (Or.inr (Or.inr (Or.inr (Or.inr (Or.inl
      (hhow "is".data h))))))))
  · exact Or.inl (Or.inr (Or.inr (Or.inr (Or.inr (Or.inr (Or.inr (Or.inr (Or.inl
      (hcomment "ça".data h)))))))))
  · exact Or.inl (Or.inr (Or.inr (Or.inr (Or.inr (Or.inr (Or.inr (Or.inr (Or.inr
      (Or.inl h)))))))))
  · exact Or.inl (Or.inr (Or.inr (Or.inr (Or.inr (Or.inr (Or.inr (Or.inr (Or.inr
      (Or.inr (Or.inl h))))))))))
  · exact Or.inl (Or.inr (Or.inr (Or.inr (Or.inr (Or.inr (Or.inr (Or.inr (Or.inr
      (Or.inr (Or.inr (Or.inl h)))))))))))
  · exact Or.inl (Or.inr (Or.inr (Or.inr (Or.inr (Or.inr (Or.inr (Or.inr (Or.inr
      (Or.inr (Or.inr (Or.inr h)))))))))))

/-- C18, as stated, fails: on `why is it slow` the strict question-opener
pattern matches and the looser one does not. -/
theorem question_patterns_counterexample :
    matchString reQuestionStart "why is it slow" = true ∧
    matchString reQuestionEarly "why is it slow" = false := by
  decide!

/-- C18, amended: for every lowercased text, if the strict question-opener
pattern matches and the text does not open, after optional whitespace, with
`why is`, then the looser question-opener pattern matches too. -/
theorem question_patterns (s : String)
    (hstart : matchString reQuestionStart s = true)
    (hwhy : matchString reWhyIs s = false) :
    matchString reQuestionEarly s = true := by
  rw [reQuestionStart_eq] at hstart
  rw [reWhyIs_eq] at hwhy
  rw [reQuestionEarly_eq]
  rcases opener_split _ _ _ start_openers s hstart with h | h
  · exact h
  · rw [h] at hwhy
    cases hwhy

/-- C18, amended, applied to the text `how does it work`, which the strict
pattern matches through `how does` and the looser one through `how `. -/
theorem question_patterns_witness :
    matchString reQuestionStart "how does it work" = true ∧
    matchString reWhyIs "how does it work" = false ∧
    matchString reQuestionEarly "how does it work" = true :=
  ⟨by decide!, by decide!, question_patterns "how does it work" (by decide!) (by decide!)⟩

end TaskRouter
